import Mathlib

/-!
# Two-view relative pose sample (`robust_essential_ba_custom.cpp`)

A shallow embedding of `main` and `readIntrinsic` of the sample
`src/openMVG_Samples/multiview_robust_essential_ba_custom/robust_essential_ba_custom.cpp`.

Conventions of the embedding.

* `double` and `float` values are exact rationals: the pose algebra of the
  exporter is studied in exact arithmetic, and `cast<double>()` of a `float`
  coordinate is the identity.
* The library routines that `main` calls but that are not part of the sample
  (image reading, description, matching, robust estimation, triangulation,
  depth, bundle adjustment) are the fields of `Env`: `main` is a function of
  their results.
* An out-of-range `operator[]` on a `std::vector` and a throwing `.at()` end
  the run with status `Status.undefined`.
* The run is observed through its exit status and the ordered list of the
  events it caused (files written, console output, calls of the estimator and
  of the bundle adjuster).
-/

namespace OpenMVG

/-! ## Numeric types -/

abbrev Vec2 := Fin 2 → ℚ
abbrev Vec3 := Fin 3 → ℚ
abbrev Mat3 := Matrix (Fin 3) (Fin 3) ℚ
abbrev Mat34 := Matrix (Fin 3) (Fin 4) ℚ

/-- Modelled from the spec: `IndexT`, the key type of views, poses and
landmarks ("a stable index"); its declaration is not part of the sample. -/
abbrev IndexT := Nat

/-- Eigen's `Matrix3d::inverse()` in exact arithmetic: the adjugate (transposed
cofactor matrix) divided by the determinant. -/
def inverse (A : Mat3) : Mat3 := (A.det)⁻¹ • A.adjugate

/-- Eigen's `.homogeneous()` of a 2-vector. -/
def homogeneous (x : Vec2) : Vec3 := ![x 0, x 1, 1]

/-! ## Hash_Map

`Hash_Map<IndexT, T>` as an association list in iteration order, kept sorted by
key by the insertions (the `std::map` instantiation). -/

abbrev Hash_Map (β : Type) := List (IndexT × β)

/-- `m.at(k)`: the value stored under `k`, `none` when `at` would throw. -/
def Hash_Map.at {β : Type} (m : Hash_Map β) (k : IndexT) : Option β :=
  match m with
  | [] => none
  | (k', v) :: rest => if k = k' then some v else Hash_Map.at rest k

/-- The map after `f` has been applied through `m[k]`: `operator[]` first
inserts the default-constructed value `dflt` when `k` is absent. -/
def Hash_Map.modify {β : Type} (m : Hash_Map β) (k : IndexT) (dflt : β) (f : β → β) :
    Hash_Map β :=
  match m with
  | [] => [(k, f dflt)]
  | (k', v) :: rest =>
    if k = k' then (k', f v) :: rest
    else if k < k' then (k, f dflt) :: (k', v) :: rest
    else (k', v) :: Hash_Map.modify rest k dflt f

/-- The map after a read through `m[k]` (which inserts `dflt` when absent). -/
def Hash_Map.touch {β : Type} (m : Hash_Map β) (k : IndexT) (dflt : β) : Hash_Map β :=
  Hash_Map.modify m k dflt id

/-- The value read through `m[k]`. -/
def Hash_Map.index {β : Type} (m : Hash_Map β) (k : IndexT) (dflt : β) : β :=
  (Hash_Map.at m k).getD dflt

/-! ## Data model -/

/-- Modelled from the spec: a decoded image, "pixel buffers with width/height
metadata". A default-constructed image is empty. -/
structure Image where
  Width : Nat
  Height : Nat
  data : List Nat

/-- Modelled from the spec: a keypoint, "2D pixel coordinates, scale,
orientation" (`SIOPointFeature`). -/
structure SIOPointFeature where
  coords : Vec2
  scale : ℚ
  orientation : ℚ

/-- Modelled from the spec: the Feature Store of one image (`SIFT_Regions`):
the keypoints and, attached 1:1, their descriptors (`unsigned char` entries). -/
structure SIFT_Regions where
  Features : List SIOPointFeature
  Descriptors : List (List Nat)

/-- `GetRegionsPositions()`: the positions of the keypoints. -/
def SIFT_Regions.GetRegionsPositions (r : SIFT_Regions) : List Vec2 :=
  r.Features.map (fun f => f.coords)

/-- `RegionCount()`. -/
def SIFT_Regions.RegionCount (r : SIFT_Regions) : Nat := r.Features.length

/-- Modelled from the spec: a correspondence, "ordered pair of keypoint
indices (one per image)" (`IndMatch`). -/
structure IndMatch where
  i_ : IndexT
  j_ : IndexT

/-- `Pinhole_Intrinsic(w, h, focal, ppx, ppy)`. -/
structure Pinhole_Intrinsic where
  w : Nat
  h : Nat
  focal : ℚ
  ppx : ℚ
  ppy : ℚ

/-- The intrinsic models `main` can store in the scene. -/
inductive IntrinsicBase where
  | Pinhole (cam : Pinhole_Intrinsic)
  | Pinhole_Radial_K3 (cam : Pinhole_Intrinsic)

/-- Modelled from the spec: a pose, "rotation + translation, a rigid transform
from world to camera frame", read through `rotation()` and `translation()`. -/
structure Pose3 where
  rotation : Mat3
  translation : Vec3

/-- `View(path, view_id, intrinsic_id, pose_id, width, height)`. -/
structure View where
  s_Img_path : String
  id_view : IndexT
  id_intrinsic : IndexT
  id_pose : IndexT
  ui_width : Nat
  ui_height : Nat

/-- `Observation(x, id_feat)`: pixel coordinates and originating keypoint. -/
structure Observation where
  x : Vec2
  id_feat : IndexT

/-- A 3D point with its observations, keyed by view id. -/
structure Landmark where
  X : Vec3
  obs : Hash_Map Observation

abbrev Landmarks := Hash_Map Landmark

/-- `SfM_Data`: views, intrinsics, poses and structure. -/
structure SfM_Data where
  views : Hash_Map View
  intrinsics : Hash_Map IntrinsicBase
  poses : Hash_Map Pose3
  structure_ : Landmarks

/-- Result of a successful robust estimation. -/
structure RelativePose_Info where
  relativePose : Pose3
  vec_inliers : List Nat
  found_residual_precision : ℚ

inductive Intrinsic_Parameter_Type where
  | NONE
  | ADJUST_ALL

inductive Extrinsic_Parameter_Type where
  | NONE
  | ADJUST_ALL

inductive Structure_Parameter_Type where
  | NONE
  | ADJUST_ALL

structure Optimize_Options where
  intrinsics_opt : Intrinsic_Parameter_Type
  extrinsics_opt : Extrinsic_Parameter_Type
  structure_opt : Structure_Parameter_Type

/-- The default-constructed `Pose3`. -/
def Pose3.default : Pose3 := ⟨1, 0⟩

/-- The default-constructed `Landmark` (no observation yet). -/
def Landmark.default : Landmark := ⟨0, []⟩

/-- The default-constructed `Observation`. -/
def Observation.default : Observation := ⟨0, 0⟩

/-! ## Calibration stream -/

/-- One whitespace-separated item of the calibration file: a number that
`operator>>` extracts, or text that it cannot. -/
inductive Tok where
  | num (v : ℚ)
  | bad

/-- An opened `ifstream`: its fail bit and the items not yet consumed. -/
structure IStream where
  failbit : Bool
  rest : List Tok

/-- The statement `in >> x`: the stream afterwards and the new value of `x`.
A failed stream leaves `x` alone, end of input sets the fail bit, text that is
not a number sets the fail bit and stores zero. -/
def IStream.extract (s : IStream) (x : ℚ) : IStream × ℚ :=
  if s.failbit then (s, x)
  else
    match s.rest with
    | [] => (⟨true, []⟩, x)
    | Tok.num v :: r => (⟨false, r⟩, v)
    | Tok.bad :: r => (⟨true, Tok.bad :: r⟩, 0)

/-! ## Observable behaviour -/

/-- What a run does to the outside world, in order. -/
inductive Event where
  | WriteImage (file : String) (img : Image)
  | Features2SVG (file : String)
  | Matches2SVG (file : String) (nb : Nat)
  | InlierMatches2SVG (file : String) (nb : Nat)
  | cout_counts (featA featB nbMatches : Nat)
  | cout_essential (precision : ℚ) (nbInliers nbMatches : Nat)
  | cout_Rt (R : Mat3) (t : Vec3)
  | cerr (msg : String)
  | call_robustRelativePose
  | call_Adjust
  | Save (file : String) (scene : SfM_Data)
  | posture (file : String) (lines : List (List ℚ))
  | center (file : String) (lines : List (List ℚ))
  | of_X (file : String) (lines : List (List ℚ))
  | of_x1 (file : String) (lines : List (List ℚ))
  | of_x2 (file : String) (lines : List (List ℚ))
  | of_desc1 (file : String) (lines : List (List Nat))
  | of_desc2 (file : String) (lines : List (List Nat))

/-- How a run ends: the two values `main` returns, or undefined behaviour
(out-of-range index, uncaught exception). -/
inductive Status where
  | EXIT_SUCCESS
  | EXIT_FAILURE
  | undefined
  deriving DecidableEq

/-- A finished run. -/
structure Run where
  status : Status
  out : List Event

/-- The command line options after `cmd.process`. -/
structure Args where
  sImgFilename1 : String
  sImgFilename2 : String
  sIntrinsicFilename : String
  sOutPrefix : String
  sOutDir : String

/-- The collaborators of `main`: every routine it calls that is not defined in
the sample, and the unspecified initial content of the local `Mat3 K`. -/
structure Env where
  ReadImage : String → Bool × Image
  Describe : Image → SIFT_Regions
  ConcatH : Image → Image → Image
  DistanceRatioMatch : ℚ → SIFT_Regions → SIFT_Regions → List IndMatch
  getDeduplicated : List IndMatch → List Vec2 → List Vec2 → List IndMatch
  ifstream : String → Option (List Tok)
  K_uninit : Mat3
  robustRelativePose : Pinhole_Intrinsic → Pinhole_Intrinsic → List Vec2 → List Vec2 →
    Nat × Nat → Nat × Nat → Nat → Option RelativePose_Info
  get_projective_equivalent : IntrinsicBase → Pose3 → Mat34
  TriangulateDLT : Mat34 → Vec3 → Mat34 → Vec3 → Vec3
  Depth : Mat3 → Vec3 → Vec3 → ℚ
  Adjust : SfM_Data → Optimize_Options → Bool × SfM_Data

/-! ## readIntrinsic -/

/-- The assignment `K(j,i) = v`. -/
def setCoeff (K : Mat3) (j i : Fin 3) (v : ℚ) : Mat3 :=
  fun a b => if a = j ∧ b = i then v else K a b

/-- The double loop `for j < 3, for i < 3: in >> K(j,i)`. -/
def readCoeffs (s : IStream) (K : Mat3) : IStream × Mat3 :=
  ([0, 1, 2] : List (Fin 3)).foldl
    (fun acc j =>
      ([0, 1, 2] : List (Fin 3)).foldl
        (fun acc i =>
          let r := IStream.extract acc.1 (acc.2 j i)
          (r.1, setCoeff acc.2 j i r.2))
        acc)
    (s, K)

/-- `readIntrinsic(fileName, K)`: the returned flag, the content of `K`
afterwards and what was printed. `fs` is the file system seen by `ifstream`. -/
def readIntrinsic (fs : String → Option (List Tok)) (fileName : String) (K : Mat3) :
    Bool × Mat3 × List Event :=
  match fs fileName with
  | some toks => (true, (readCoeffs ⟨false, toks⟩ K).2, [])
  | none => (false, K, [Event.cerr "Invalid input K.txt file"])

/-! ## The stages of `main` -/

/-- Step A: the loop that fills the columns `featsL[match[k].i_]` of `xL` and
`featsR[match[k].j_]` of `xR`; `none` when an index is out of range. -/
def putativePoints (featsL featsR : List Vec2) (vec_PutativeMatches : List IndMatch) :
    Option (List Vec2 × List Vec2) :=
  vec_PutativeMatches.foldlM
    (fun (x : List Vec2 × List Vec2) (m : IndMatch) => do
      let imaL ← featsL[m.i_]?
      let imaR ← featsR[m.j_]?
      pure (x.1 ++ [imaL], x.2 ++ [imaR]))
    ([], [])

/-- The keypoints `LL`, `RR` and the match of inlier position `i`. -/
def inlierFeatures (regionsL regionsR : SIFT_Regions) (vec_PutativeMatches : List IndMatch)
    (vec_inliers : List Nat) (i : Nat) : Option (IndMatch × SIOPointFeature × SIOPointFeature) := do
  let inl ← vec_inliers[i]?
  let m ← vec_PutativeMatches[inl]?
  let LL ← regionsL.Features[m.i_]?
  let RR ← regionsR.Features[m.j_]?
  pure (m, LL, RR)

/-- The body of the loop of step C for inlier position `i`. -/
def triangulateStep (env : Env) (regionsL regionsR : SIFT_Regions)
    (vec_PutativeMatches : List IndMatch) (vec_inliers : List Nat) (view0 view1 : View)
    (pose0 pose1 : Pose3) (P1 P2 : Mat34) (landmarks : Landmarks) (i : Nat) : Option Landmarks := do
  let (m, LL, RR) ← inlierFeatures regionsL regionsR vec_PutativeMatches vec_inliers i
  let X := env.TriangulateDLT P1 (homogeneous LL.coords) P2 (homogeneous RR.coords)
  if env.Depth pose0.rotation pose0.translation X < 0 ∧
      env.Depth pose1.rotation pose1.translation X < 0 then
    pure landmarks
  else
    let landmarks := Hash_Map.modify landmarks i Landmark.default (fun lm =>
      { lm with obs := Hash_Map.modify lm.obs view0.id_view Observation.default
                         (fun _ => Observation.mk LL.coords m.i_) })
    let landmarks := Hash_Map.modify landmarks i Landmark.default (fun lm =>
      { lm with obs := Hash_Map.modify lm.obs view1.id_view Observation.default
                         (fun _ => Observation.mk RR.coords m.j_) })
    let landmarks := Hash_Map.modify landmarks i Landmark.default (fun lm => { lm with X := X })
    pure landmarks

/-- Step C: `for (i = 0; i < vec_inliers.size(); ++i)` on the structure. -/
def triangulateInliers (env : Env) (regionsL regionsR : SIFT_Regions)
    (vec_PutativeMatches : List IndMatch) (vec_inliers : List Nat) (view0 view1 : View)
    (pose0 pose1 : Pose3) (P1 P2 : Mat34) (landmarks : Landmarks) : Option Landmarks :=
  (List.range vec_inliers.length).foldlM
    (triangulateStep env regionsL regionsR vec_PutativeMatches vec_inliers view0 view1
      pose0 pose1 P1 P2)
    landmarks

/-- `Mat3 R = R1 * R2.inverse()`. -/
def relativeR (R1 R2 : Mat3) : Mat3 := R1 * inverse R2

/-- `Vec3 t = -R1 * R2.inverse() * t2 + t1`. -/
def relativet (R1 : Mat3) (t1 : Vec3) (R2 : Mat3) (t2 : Vec3) : Vec3 :=
  Matrix.mulVec (-R1 * inverse R2) t2 + t1

/-- `X = R1 * X + t1` of the export loop. -/
def exportX (R1 : Mat3) (t1 : Vec3) (X : Vec3) : Vec3 := Matrix.mulVec R1 X + t1

/-- The five per-landmark streams. -/
structure PointFiles where
  X : List (List ℚ)
  x1 : List (List ℚ)
  x2 : List (List ℚ)
  desc1 : List (List Nat)
  desc2 : List (List Nat)

/-- The body of the export loop for the map entry `itr`. -/
def exportStep (regionsL regionsR : SIFT_Regions) (vec_PutativeMatches : List IndMatch)
    (vec_inliers : List Nat) (R1 : Mat3) (t1 : Vec3) (files : PointFiles)
    (itr : IndexT × Landmark) : Option PointFiles := do
  let X := itr.2.X
  let o1 ← Hash_Map.at itr.2.obs 0
  let o2 ← Hash_Map.at itr.2.obs 1
  let x1 := o1.x
  let x2 := o2.x
  let inl ← vec_inliers[itr.1]?
  let m ← vec_PutativeMatches[inl]?
  let desc1 ← regionsL.Descriptors[m.i_]?
  let desc2 ← regionsR.Descriptors[m.j_]?
  let X := exportX R1 t1 X
  pure { X := files.X ++ [[X 0, X 1, X 2]]
         x1 := files.x1 ++ [[x1 0, x1 1]]
         x2 := files.x2 ++ [[x2 0, x2 1]]
         desc1 := files.desc1 ++ [desc1]
         desc2 := files.desc2 ++ [desc2] }

/-- The export loop over `tiny_scene.structure`. -/
def exportLandmarks (regionsL regionsR : SIFT_Regions) (vec_PutativeMatches : List IndMatch)
    (vec_inliers : List Nat) (R1 : Mat3) (t1 : Vec3) (landmarks : Landmarks) :
    Option PointFiles :=
  landmarks.foldlM (exportStep regionsL regionsR vec_PutativeMatches vec_inliers R1 t1)
    ⟨[], [], [], [], []⟩

/-- The constant `int iBAType = 2`. -/
def iBAType : Nat := 2

/-- `bSharedIntrinsic`. -/
def bSharedIntrinsic : Bool := if iBAType = 2 ∨ iBAType = 3 then true else false

/-- The `switch (iBAType)` that fills `tiny_scene.intrinsics`; `none` is the
`default:` branch. -/
def setupIntrinsics (imageL imageR : Image) (K : Mat3) : Option (Hash_Map IntrinsicBase) :=
  match iBAType with
  | 1 => some [(0, IntrinsicBase.Pinhole ⟨imageL.Width, imageL.Height, K 0 0, K 0 2, K 1 2⟩),
               (1, IntrinsicBase.Pinhole ⟨imageR.Width, imageR.Height, K 0 0, K 0 2, K 1 2⟩)]
  | 2 => some [(0, IntrinsicBase.Pinhole ⟨imageL.Width, imageL.Height, K 0 0, K 0 2, K 1 2⟩)]
  | 3 => some [(0, IntrinsicBase.Pinhole_Radial_K3
                 ⟨imageL.Width, imageL.Height, K 0 0, K 0 2, K 1 2⟩)]
  | _ => none

/-- The two views of `tiny_scene`: `View("", 0, ..., 0, ...)` for the left
picture and `View("", 1, ..., 1, ...)` for the right one. -/
def tinyViews (imageL imageR : Image) : View × View :=
  (⟨"", 0, if bSharedIntrinsic then 0 else 1, 0, imageL.Width, imageL.Height⟩,
   ⟨"", 1, if bSharedIntrinsic then 0 else 1, 1, imageR.Width, imageR.Height⟩)

/-- The run `r` preceded by the events `pre`. -/
def Run.after (pre : List Event) (r : Run) : Run := ⟨r.status, pre ++ r.out⟩

/-- Steps C and D of `main` and the export, entered once the robust estimation
has succeeded with `relativePose_info`. -/
def reconstruct (env : Env) (args : Args) (imageL imageR : Image)
    (regionsL regionsR : SIFT_Regions) (vec_PutativeMatches : List IndMatch) (K : Mat3)
    (relativePose_info : RelativePose_Info) : Run :=
  let view0 : View := (tinyViews imageL imageR).1
  let view1 : View := (tinyViews imageL imageR).2
  let views : Hash_Map View := [(0, view0), (1, view1)]
  match setupIntrinsics imageL imageR K with
  | none => ⟨Status.EXIT_FAILURE, [Event.cerr "Invalid input number"]⟩
  | some intrinsics =>
    let pose0 : Pose3 := ⟨1, 0⟩
    let poses : Hash_Map Pose3 := Hash_Map.modify [] view0.id_pose Pose3.default (fun _ => pose0)
    let pose1 : Pose3 := relativePose_info.relativePose
    let poses := Hash_Map.modify poses view1.id_pose Pose3.default (fun _ => pose1)
    match Hash_Map.at intrinsics view0.id_intrinsic, Hash_Map.at intrinsics view1.id_intrinsic with
    | some intrinsic0, some intrinsic1 =>
      let P1 := env.get_projective_equivalent intrinsic0 pose0
      let P2 := env.get_projective_equivalent intrinsic1 pose1
      match triangulateInliers env regionsL regionsR vec_PutativeMatches
          relativePose_info.vec_inliers view0 view1 pose0 pose1 P1 P2 [] with
      | none => ⟨Status.undefined, []⟩
      | some landmarks =>
        let tiny_scene : SfM_Data := ⟨views, intrinsics, poses, landmarks⟩
        let out := [Event.Save (args.sOutDir ++ "\\EssentialGeometry_start_" ++ args.sOutPrefix ++ ".ply")
                      tiny_scene,
                    Event.call_Adjust]
        let tiny_scene := (env.Adjust tiny_scene
          ⟨Intrinsic_Parameter_Type.NONE, Extrinsic_Parameter_Type.ADJUST_ALL,
            Structure_Parameter_Type.ADJUST_ALL⟩).2
        let R1 := (Hash_Map.index tiny_scene.poses 0 Pose3.default).rotation
        let t1 := (Hash_Map.index tiny_scene.poses 0 Pose3.default).translation
        let tiny_scene := { tiny_scene with poses := Hash_Map.touch tiny_scene.poses 0 Pose3.default }
        let R2 := (Hash_Map.index tiny_scene.poses 1 Pose3.default).rotation
        let t2 := (Hash_Map.index tiny_scene.poses 1 Pose3.default).translation
        let tiny_scene := { tiny_scene with poses := Hash_Map.touch tiny_scene.poses 1 Pose3.default }
        let R := relativeR R1 R2
        let t := relativet R1 t1 R2 t2
        let out := out ++
          [Event.posture (args.sOutDir ++ "\\posture_" ++ args.sOutPrefix ++ ".txt")
             [[R 0 0, R 0 1, R 0 2], [R 1 0, R 1 1, R 1 2], [R 2 0, R 2 1, R 2 2]],
           Event.center (args.sOutDir ++ "\\center_" ++ args.sOutPrefix ++ ".txt")
             [[t 0], [t 1], [t 2]]]
        match exportLandmarks regionsL regionsR vec_PutativeMatches
            relativePose_info.vec_inliers R1 t1 tiny_scene.structure_ with
        | none => ⟨Status.undefined, out⟩
        | some files =>
          ⟨Status.EXIT_SUCCESS, out ++
            [Event.of_X (args.sOutDir ++ "\\X_" ++ args.sOutPrefix ++ ".txt") files.X,
             Event.of_x1 (args.sOutDir ++ "\\x1_" ++ args.sOutPrefix ++ ".txt") files.x1,
             Event.of_x2 (args.sOutDir ++ "\\x2_" ++ args.sOutPrefix ++ ".txt") files.x2,
             Event.of_desc1 (args.sOutDir ++ "\\desc1_" ++ args.sOutPrefix ++ ".txt") files.desc1,
             Event.of_desc2 (args.sOutDir ++ "\\desc2_" ++ args.sOutPrefix ++ ".txt") files.desc2,
             Event.Save (args.sOutDir ++ "\\EssentialGeometry_refined_" ++ args.sOutPrefix ++ "_.ply")
               tiny_scene]⟩
    | _, _ => ⟨Status.undefined, []⟩

/-- What `main` holds when it enters the block "Essential geometry filtering
of putative matches": both images, their regions and the putative matches. -/
structure Matched where
  imageL : Image
  imageR : Image
  regionsL : SIFT_Regions
  regionsR : SIFT_Regions
  featsL : List Vec2
  featsR : List Vec2
  vec_PutativeMatches : List IndMatch

/-- Lines 65-143 of `main`: reading, description, matching and the first three
visualisations. The flags returned by `ReadImage` are dropped. -/
def matchImages (env : Env) (args : Args) : Matched × List Event :=
  let jpg_filenameL := args.sImgFilename1
  let jpg_filenameR := args.sImgFilename2
  let imageL := (env.ReadImage jpg_filenameL).2
  let imageR := (env.ReadImage jpg_filenameR).2
  let regionsL := env.Describe imageL
  let regionsR := env.Describe imageR
  let featsL := regionsL.GetRegionsPositions
  let featsR := regionsR.GetRegionsPositions
  let vec_PutativeMatches :=
    env.getDeduplicated (env.DistanceRatioMatch (4 / 5) regionsL regionsR) featsL featsR
  (⟨imageL, imageR, regionsL, regionsR, featsL, featsR, vec_PutativeMatches⟩,
   [Event.WriteImage (args.sOutDir ++ "\\01_concat_" ++ args.sOutPrefix ++ ".jpg")
      (env.ConcatH imageL imageR),
    Event.Features2SVG (args.sOutDir ++ "\\02_features_" ++ args.sOutPrefix ++ ".svg"),
    Event.cout_counts regionsL.RegionCount regionsR.RegionCount vec_PutativeMatches.length,
    Event.Matches2SVG (args.sOutDir ++ "\\03_Matches_" ++ args.sOutPrefix ++ ".svg")
      vec_PutativeMatches.length])

/-- Steps A and B: the verdict of `robustRelativePose` on the putative points
(`some none` when it returns false); `none` when step A indexes out of range. -/
def estimate (env : Env) (m : Matched) (K : Mat3) : Option (Option RelativePose_Info) :=
  let camL : Pinhole_Intrinsic := ⟨m.imageL.Width, m.imageL.Height, K 0 0, K 0 2, K 1 2⟩
  let camR : Pinhole_Intrinsic := ⟨m.imageR.Width, m.imageR.Height, K 0 0, K 0 2, K 1 2⟩
  match putativePoints m.featsL m.featsR m.vec_PutativeMatches with
  | none => none
  | some (xL, xR) =>
    let size_imaL := (m.imageL.Width, m.imageL.Height)
    let size_imaR := (m.imageR.Width, m.imageR.Height)
    some (env.robustRelativePose camL camR xL xR size_imaL size_imaR 256)

/-- The block "Essential geometry filtering of putative matches" of `main`. -/
def essentialGeometry (env : Env) (args : Args) (m : Matched) : Run :=
  match readIntrinsic env.ifstream args.sIntrinsicFilename env.K_uninit with
  | (false, _, msgs) =>
    ⟨Status.EXIT_FAILURE, msgs ++ [Event.cerr "Cannot read intrinsic parameters."]⟩
  | (true, K, msgs) =>
    match estimate env m K with
    | none => ⟨Status.undefined, msgs⟩
    | some none =>
      ⟨Status.EXIT_FAILURE, msgs ++ [Event.call_robustRelativePose,
        Event.cerr " /!\\ Robust relative pose estimation failure."]⟩
    | some (some relativePose_info) =>
      Run.after
        (msgs ++
          [Event.call_robustRelativePose,
           Event.cout_essential relativePose_info.found_residual_precision
             relativePose_info.vec_inliers.length m.vec_PutativeMatches.length,
           Event.InlierMatches2SVG
             (args.sOutDir ++ "\\04_ACRansacEssential_" ++ args.sOutPrefix ++ ".svg")
             relativePose_info.vec_inliers.length,
           Event.cout_Rt relativePose_info.relativePose.rotation
             relativePose_info.relativePose.translation])
        (reconstruct env args m.imageL m.imageR m.regionsL m.regionsR m.vec_PutativeMatches K
          relativePose_info)

/-- The program: its exit status and its events, for the collaborators `env`
and the parsed command line `args`. -/
def main (env : Env) (args : Args) : Run :=
  Run.after (matchImages env args).2 (essentialGeometry env args (matchImages env args).1)

/-- The content of `K` when `main` reaches step A. -/
def mainK (env : Env) (args : Args) : Mat3 :=
  (readIntrinsic env.ifstream args.sIntrinsicFilename env.K_uninit).2.1

/-- Events that emit a relative pose or structure, or that belong to scene
construction and bundle adjustment. -/
def Event.isResult : Event → Bool
  | Event.posture _ _ => true
  | Event.center _ _ => true
  | Event.of_X _ _ => true
  | Event.of_x1 _ _ => true
  | Event.of_x2 _ _ => true
  | Event.of_desc1 _ _ => true
  | Event.of_desc2 _ _ => true
  | Event.Save _ _ => true
  | Event.call_Adjust => true
  | _ => false

/-- The file begins with nine numeric values, `v 0`, ..., `v 8`. -/
def wellFormedCalibration (toks : List Tok) (v : Fin 9 → ℚ) : Prop :=
  ∃ rest, toks = (List.ofFn v).map Tok.num ++ rest

/-- What one turn of the loop of step C adds to the structure for inlier
position `i`, in closed form: nothing when the lookups fail or the point is
behind both cameras, else the landmark with key `i`. -/
def createdLandmark (env : Env) (regionsL regionsR : SIFT_Regions)
    (vec_PutativeMatches : List IndMatch) (vec_inliers : List Nat) (pose0 pose1 : Pose3)
    (P1 P2 : Mat34) (i : Nat) : Option (IndexT × Landmark) :=
  match inlierFeatures regionsL regionsR vec_PutativeMatches vec_inliers i with
  | none => none
  | some (m, LL, RR) =>
    if env.Depth pose0.rotation pose0.translation
          (env.TriangulateDLT P1 (homogeneous LL.coords) P2 (homogeneous RR.coords)) < 0 ∧
        env.Depth pose1.rotation pose1.translation
          (env.TriangulateDLT P1 (homogeneous LL.coords) P2 (homogeneous RR.coords)) < 0 then
      none
    else
      some (i, ⟨env.TriangulateDLT P1 (homogeneous LL.coords) P2 (homogeneous RR.coords),
        [(0, ⟨LL.coords, m.i_⟩), (1, ⟨RR.coords, m.j_⟩)]⟩)

/-- The point `X` that step C triangulates for inlier position `i`. -/
def inlierPoint (env : Env) (regionsL regionsR : SIFT_Regions)
    (vec_PutativeMatches : List IndMatch) (vec_inliers : List Nat) (P1 P2 : Mat34) (i : Nat) :
    Option Vec3 :=
  (inlierFeatures regionsL regionsR vec_PutativeMatches vec_inliers i).map
    (fun f => env.TriangulateDLT P1 (homogeneous f.2.1.coords) P2 (homogeneous f.2.2.coords))

/-- The collaborators `env` with the flags returned by `ReadImage` replaced by
`flag`; the images read are the same. -/
def Env.withReadFlags (env : Env) (flag : String → Bool) : Env :=
  { env with ReadImage := fun file => (flag file, (env.ReadImage file).2) }

/-- The collaborators `env` with the flag returned by each call of `Adjust`
replaced by `flag`; the scene it leaves is the same. -/
def Env.withAdjustFlag (env : Env) (flag : SfM_Data → Optimize_Options → Bool) : Env :=
  { env with Adjust := fun scene options => (flag scene options, (env.Adjust scene options).2) }

/-! ## A small concrete run -/

/-- One keypoint at pixel (10, 20) with a two-entry descriptor. -/
def sampleRegions : SIFT_Regions := ⟨[⟨![10, 20], 1, 0⟩], [[7, 8]]⟩

/-- A successful estimation: unit baseline along x, one inlier. -/
def sampleInfo : RelativePose_Info := ⟨⟨1, ![-1, 0, 0]⟩, [0], 1 / 2⟩

/-- Concrete collaborators. Reading yields a 4x3 image, or fails and leaves the
image empty; an empty image has no keypoint; the calibration file has content
`calib`, the estimator answers `estimation`, the bundle adjuster returns
`adjustOk` and leaves the scene as it is. -/
def sampleEnv (readOk : Bool) (calib : Option (List Tok)) (estimation : Option RelativePose_Info)
    (adjustOk : Bool) : Env where
  ReadImage := fun _ => if readOk then (true, ⟨4, 3, []⟩) else (false, ⟨0, 0, []⟩)
  Describe := fun img => if img.Width = 0 then ⟨[], []⟩ else sampleRegions
  ConcatH := fun a b => ⟨a.Width + b.Width, max a.Height b.Height, []⟩
  DistanceRatioMatch := fun _ a b =>
    if a.Features.length = 0 ∨ b.Features.length = 0 then [] else [⟨0, 0⟩]
  getDeduplicated := fun ms _ _ => ms
  ifstream := fun _ => calib
  K_uninit := 0
  robustRelativePose := fun _ _ _ _ _ _ _ => estimation
  get_projective_equivalent := fun _ _ => 0
  TriangulateDLT := fun _ _ _ _ => ![0, 0, 5]
  Depth := fun R t X => Matrix.mulVec R X 2 + t 2
  Adjust := fun scene _ => (adjustOk, scene)

/-- A "successful" estimation without any inlier. -/
def sampleInfoNoInlier : RelativePose_Info := ⟨⟨1, ![-1, 0, 0]⟩, [], 1 / 2⟩

/-- The 4x3 image of the concrete run. -/
def sampleImage : Image := ⟨4, 3, []⟩

/-- The single putative match of the concrete run. -/
def sampleMatches : List IndMatch := [⟨0, 0⟩]

/-- The nine values of `sampleCalibration`, row by row. -/
def sampleCalibrationValues : Fin 9 → ℚ := ![800, 0, 2, 0, 800, 3 / 2, 0, 0, 1]

/-- A structure after bundle adjustment: the landmark of the concrete run,
moved from depth 5 to depth 7. -/
def sampleRefined : Landmarks :=
  [(0, ⟨![0, 0, 7], [(0, ⟨![10, 20], 0⟩), (1, ⟨![10, 20], 0⟩)]⟩)]

/-- A command line. -/
def sampleArgs : Args := ⟨"a.jpg", "b.jpg", "K.txt", "run", "out"⟩

/-- A calibration file with focal 800 and principal point (2, 3/2). -/
def sampleCalibration : List Tok :=
  [Tok.num 800, Tok.num 0, Tok.num 2, Tok.num 0, Tok.num 800, Tok.num (3 / 2),
   Tok.num 0, Tok.num 0, Tok.num 1]

/-- The concrete collaborators when everything succeeds. -/
def sampleEnvOk : Env := sampleEnv true (some sampleCalibration) (some sampleInfo) true

/-! ## Poses as rigid transforms (the vocabulary of the specification) -/

/-- A pose `(R, t)` acting on a point: `x ↦ R * x + t`. -/
def Pose3.apply (p : Pose3) (x : Vec3) : Vec3 := Matrix.mulVec p.rotation x + p.translation

/-- The inverse rigid transform `y ↦ R⁻¹ * (y - t)`. -/
def Pose3.inv (p : Pose3) : Pose3 :=
  ⟨inverse p.rotation, -(Matrix.mulVec (inverse p.rotation) p.translation)⟩

/-- The composition `p ∘ q`: first `q`, then `p`. -/
def Pose3.comp (p q : Pose3) : Pose3 :=
  ⟨p.rotation * q.rotation, Matrix.mulVec p.rotation q.translation + p.translation⟩

/-- The optical centre `C = -R⁻¹ * t` of a camera with pose `(R, t)`. -/
def opticalCentre (R : Mat3) (t : Vec3) : Vec3 := -(Matrix.mulVec (inverse R) t)

/-- The pair `(R, t)` that the exporter writes to the posture and center files. -/
def exportedPose (pose1 pose2 : Pose3) : Pose3 :=
  ⟨relativeR pose1.rotation pose2.rotation,
   relativet pose1.rotation pose1.translation pose2.rotation pose2.translation⟩

/-- A quarter turn about the optical axis. -/
def quarterTurn : Mat3 := !![0, -1, 0; 1, 0, 0; 0, 0, 1]

/-! ## The scene after bundle adjustment -/

/-- The options that `main` passes to `Adjust`. -/
def adjustOptions : Optimize_Options :=
  ⟨Intrinsic_Parameter_Type.NONE, Extrinsic_Parameter_Type.ADJUST_ALL,
    Structure_Parameter_Type.ADJUST_ALL⟩

/-- The scene as `Adjust` left it when called on `scene`; the flag that
`Adjust` returns is not part of it. -/
def adjustedScene (env : Env) (scene : SfM_Data) : SfM_Data := (env.Adjust scene adjustOptions).2

/-- The refined pose of camera 1: `tiny_scene.poses[0]` after `Adjust`. -/
def refinedPose1 (env : Env) (scene : SfM_Data) : Pose3 :=
  Hash_Map.index (adjustedScene env scene).poses 0 Pose3.default

/-- The refined pose of camera 2: `tiny_scene.poses[1]` after `Adjust`, read
once `poses[0]` has been read. -/
def refinedPose2 (env : Env) (scene : SfM_Data) : Pose3 :=
  Hash_Map.index (Hash_Map.touch (adjustedScene env scene).poses 0 Pose3.default) 1 Pose3.default

/-- The adjusted scene once `poses[0]` and `poses[1]` have been read through
`operator[]`: the scene of the refined snapshot. -/
def snapshotScene (env : Env) (scene : SfM_Data) : SfM_Data :=
  { adjustedScene env scene with
    poses := Hash_Map.touch (Hash_Map.touch (adjustedScene env scene).poses 0 Pose3.default) 1
      Pose3.default }

/-- The scene that step C hands to the bundle adjustment: the two views, the
shared pinhole intrinsic, the identity pose, the estimated pose and the
triangulated `landmarks`. -/
def initialScene (imageL imageR : Image) (K : Mat3) (info : RelativePose_Info)
    (landmarks : Landmarks) : SfM_Data :=
  ⟨[(0, (tinyViews imageL imageR).1), (1, (tinyViews imageL imageR).2)],
   [(0, IntrinsicBase.Pinhole ⟨imageL.Width, imageL.Height, K 0 0, K 0 2, K 1 2⟩)],
   [(0, ⟨1, 0⟩), (1, info.relativePose)], landmarks⟩

/-- The three rows of a 3x3 matrix, as the lines of the posture file. -/
def matrixLines (R : Mat3) : List (List ℚ) :=
  [[R 0 0, R 0 1, R 0 2], [R 1 0, R 1 1, R 1 2], [R 2 0, R 2 1, R 2 2]]

/-- The three entries of a 3-vector, one per line, as in the center file. -/
def vectorLines (t : Vec3) : List (List ℚ) := [[t 0], [t 1], [t 2]]

/-- Concrete collaborators whose bundle adjustment reports failure and yet
changes the scene: it moves camera 1 to `(0, 0, 1)`, turns camera 2 by a
quarter turn and moves the landmark to depth 7. -/
def sampleEnvMoving : Env :=
  { sampleEnvOk with
    Adjust := fun scene _ =>
      (false, { scene with
        poses := [(0, ⟨1, ![0, 0, 1]⟩), (1, ⟨quarterTurn, ![-1, 0, 0]⟩)]
        structure_ := sampleRefined }) }

/-! # Properties -/

/-! ## Pose algebra of the exporter -/

theorem inverse_eq_inv (A : Mat3) : inverse A = A⁻¹ := by
  simp [inverse, Matrix.inv_def]

theorem inverse_mul_self {A : Mat3} (h : A.det ≠ 0) : inverse A * A = 1 := by
  rw [inverse_eq_inv]
  exact Matrix.nonsing_inv_mul A (isUnit_iff_ne_zero.mpr h)

theorem mul_inverse_self {A : Mat3} (h : A.det ≠ 0) : A * inverse A = 1 := by
  rw [inverse_eq_inv]
  exact Matrix.mul_nonsing_inv A (isUnit_iff_ne_zero.mpr h)

theorem inverse_relativeR (R1 : Mat3) {R2 : Mat3} (h2 : R2.det ≠ 0) :
    inverse (relativeR R1 R2) = R2 * inverse R1 := by
  have hu2 : IsUnit R2.det := isUnit_iff_ne_zero.mpr h2
  simp only [relativeR, inverse_eq_inv]
  rw [Matrix.mul_inv_rev, Matrix.nonsing_inv_nonsing_inv R2 hu2]

theorem quarterTurn_det : quarterTurn.det = 1 := by
  simp [quarterTurn, Matrix.det_fin_three]

theorem relativet_eq (R1 : Mat3) (t1 : Vec3) (R2 : Mat3) (t2 : Vec3) :
    relativet R1 t1 R2 t2 = Matrix.mulVec R1 (opticalCentre R2 t2) + t1 := by
  simp [relativet, opticalCentre, Matrix.mulVec_neg, Matrix.neg_mulVec, Matrix.mulVec_mulVec]

/-- C2, as stated, fails: with camera 1 at the identity and camera 2 turned by
a quarter turn (both rotations invertible), the exported rotation
`R1 * R2⁻¹` is not `R2 * R1⁻¹`, the rotation of pose 2 composed with the
inverse of pose 1. -/
theorem C2_exported_rotation_counterexample :
    (1 : Mat3).det ≠ 0 ∧ quarterTurn.det ≠ 0 ∧
      relativeR 1 quarterTurn ≠ quarterTurn * inverse 1 ∧
      (exportedPose ⟨1, 0⟩ ⟨quarterTurn, 0⟩).rotation ≠
        (Pose3.comp ⟨quarterTurn, 0⟩ (Pose3.inv ⟨1, 0⟩)).rotation := by
  have hne : relativeR 1 quarterTurn ≠ quarterTurn * inverse 1 := by
    intro h
    have h01 := congrFun (congrFun h 0) 1
    simp [relativeR, quarterTurn, inverse, Matrix.det_fin_three, Matrix.adjugate_fin_three] at h01
    norm_num at h01
  refine ⟨by simp, by simp [quarterTurn_det], hne, ?_⟩
  simpa [exportedPose, Pose3.comp, Pose3.inv] using hne

/-- C2, amended: the exported pair `(R, t)` is the rigid transform obtained by
composing camera 1's refined pose with the inverse of camera 2's refined pose
(first the inverse of pose 2, then pose 1), so `R = R1 * R2⁻¹`; when `R2` is
invertible it takes the camera-2 coordinates of every point to its camera-1
coordinates. -/
theorem C2_exported_pose_is_pose1_after_inverse_pose2 (pose1 pose2 : Pose3)
    (h2 : pose2.rotation.det ≠ 0) :
    exportedPose pose1 pose2 = Pose3.comp pose1 (Pose3.inv pose2) ∧
      (exportedPose pose1 pose2).rotation = pose1.rotation * inverse pose2.rotation ∧
      ∀ X : Vec3, (exportedPose pose1 pose2).apply (pose2.apply X) = pose1.apply X := by
  have hpose : exportedPose pose1 pose2 = Pose3.comp pose1 (Pose3.inv pose2) := by
    simp [exportedPose, Pose3.comp, Pose3.inv, relativeR, relativet, Matrix.mulVec_neg,
      Matrix.neg_mulVec, Matrix.mulVec_mulVec]
  refine ⟨hpose, rfl, ?_⟩
  intro X
  have hinv := inverse_mul_self h2
  have hX : Matrix.mulVec (pose1.rotation * inverse pose2.rotation)
      (Matrix.mulVec pose2.rotation X) = Matrix.mulVec pose1.rotation X := by
    rw [Matrix.mulVec_mulVec, Matrix.mul_assoc, hinv, Matrix.mul_one]
  simp only [exportedPose, Pose3.apply, relativeR, relativet, Matrix.neg_mul,
    Matrix.neg_mulVec, Matrix.mulVec_add, hX]
  abel

/-- Witness of C2 (amended) at camera 1 = identity, camera 2 = quarter turn
translated by `(1, 2, 3)`. -/
theorem C2_exported_pose_witness :
    quarterTurn.det ≠ 0 ∧
      (exportedPose ⟨1, 0⟩ ⟨quarterTurn, ![1, 2, 3]⟩ =
          Pose3.comp ⟨1, 0⟩ (Pose3.inv ⟨quarterTurn, ![1, 2, 3]⟩) ∧
        (exportedPose ⟨1, 0⟩ ⟨quarterTurn, ![1, 2, 3]⟩).rotation = 1 * inverse quarterTurn ∧
        ∀ X : Vec3, (exportedPose ⟨1, 0⟩ ⟨quarterTurn, ![1, 2, 3]⟩).apply
          ((⟨quarterTurn, ![1, 2, 3]⟩ : Pose3).apply X) = (⟨1, 0⟩ : Pose3).apply X) :=
  ⟨by simp [quarterTurn_det],
   C2_exported_pose_is_pose1_after_inverse_pose2 ⟨1, 0⟩ ⟨quarterTurn, ![1, 2, 3]⟩
     (by simp [quarterTurn_det])⟩

/-- C3: for `R2` invertible the exported translation is camera 2's optical
centre `C2 = -R2⁻¹ * t2` (the point that pose 2 sends to the origin) expressed
in camera 1's refined frame, `t = R1 * C2 + t1`; when camera 1's pose is the
identity, `t = C2` and the exported rotation is `R2⁻¹`. -/
theorem C3_exported_translation_is_centre_of_camera2 (R1 : Mat3) (t1 : Vec3) (R2 : Mat3)
    (t2 : Vec3) (h2 : R2.det ≠ 0) :
    relativet R1 t1 R2 t2 = Matrix.mulVec R1 (opticalCentre R2 t2) + t1 ∧
      Matrix.mulVec R2 (opticalCentre R2 t2) + t2 = 0 ∧
      relativet 1 0 R2 t2 = opticalCentre R2 t2 ∧
      relativeR 1 R2 = inverse R2 := by
  refine ⟨relativet_eq R1 t1 R2 t2, ?_, ?_, ?_⟩
  · simp [opticalCentre, Matrix.mulVec_neg, Matrix.mulVec_mulVec, mul_inverse_self h2]
  · simp [relativet_eq]
  · simp [relativeR]

/-- Witness of C3 at `R1 = 1`, `t1 = (1, 0, 0)`, `R2` a quarter turn and
`t2 = (1, 2, 3)`. -/
theorem C3_exported_translation_witness :
    quarterTurn.det ≠ 0 ∧
      (relativet 1 ![1, 0, 0] quarterTurn ![1, 2, 3] =
          Matrix.mulVec 1 (opticalCentre quarterTurn ![1, 2, 3]) + ![1, 0, 0] ∧
        Matrix.mulVec quarterTurn (opticalCentre quarterTurn ![1, 2, 3]) + ![1, 2, 3] = 0 ∧
        relativet 1 0 quarterTurn ![1, 2, 3] = opticalCentre quarterTurn ![1, 2, 3] ∧
        relativeR 1 quarterTurn = inverse quarterTurn) :=
  ⟨by simp [quarterTurn_det],
   C3_exported_translation_is_centre_of_camera2 1 ![1, 0, 0] quarterTurn ![1, 2, 3]
     (by simp [quarterTurn_det])⟩

/-- C10: for invertible refined rotations, mapping an exported point
`X' = R1 * X + t1` through the inverse of the exported relative pose,
`R⁻¹ * (X' - t)`, gives the point's coordinates `R2 * X + t2` in camera 2's
refined frame. -/
theorem C10_exported_points_consistent_with_exported_pose (R1 : Mat3) (t1 : Vec3) (R2 : Mat3)
    (t2 : Vec3) (X : Vec3) (h1 : R1.det ≠ 0) (h2 : R2.det ≠ 0) :
    Matrix.mulVec (inverse (relativeR R1 R2)) (exportX R1 t1 X - relativet R1 t1 R2 t2) =
      Matrix.mulVec R2 X + t2 := by
  rw [inverse_relativeR R1 h2]
  have hdiff : exportX R1 t1 X - relativet R1 t1 R2 t2 =
      Matrix.mulVec R1 (X + Matrix.mulVec (inverse R2) t2) := by
    simp only [exportX, relativet, Matrix.neg_mul, Matrix.neg_mulVec, Matrix.mulVec_add,
      Matrix.mulVec_mulVec]
    abel
  rw [hdiff, Matrix.mulVec_mulVec, Matrix.mul_assoc, inverse_mul_self h1, Matrix.mul_one,
    Matrix.mulVec_add, Matrix.mulVec_mulVec, mul_inverse_self h2, Matrix.one_mulVec]

/-- Witness of C10 at `R1 = R2 =` quarter turn, `t1 = (1, 0, 0)`,
`t2 = (1, 2, 3)` and the point `(0, 0, 5)`. -/
theorem C10_exported_points_witness :
    quarterTurn.det ≠ 0 ∧
      Matrix.mulVec (inverse (relativeR quarterTurn quarterTurn))
          (exportX quarterTurn ![1, 0, 0] ![0, 0, 5] -
            relativet quarterTurn ![1, 0, 0] quarterTurn ![1, 2, 3]) =
        Matrix.mulVec quarterTurn ![0, 0, 5] + ![1, 2, 3] :=
  ⟨by simp [quarterTurn_det],
   C10_exported_points_consistent_with_exported_pose quarterTurn ![1, 0, 0] quarterTurn
     ![1, 2, 3] ![0, 0, 5] (by simp [quarterTurn_det]) (by simp [quarterTurn_det])⟩

/-! ## readIntrinsic -/

theorem readIntrinsic_flag (fs : String → Option (List Tok)) (fileName : String) (K : Mat3) :
    (readIntrinsic fs fileName K).1 = (fs fileName).isSome := by
  unfold readIntrinsic
  cases fs fileName <;> rfl

theorem readCoeffs_wellFormed (v : Fin 9 → ℚ) (rest : List Tok) (K : Mat3) (j i : Fin 3) :
    (readCoeffs ⟨false, (List.ofFn v).map Tok.num ++ rest⟩ K).2 j i =
      v ⟨3 * j.val + i.val, by omega⟩ := by
  fin_cases j <;> fin_cases i <;>
    simp [readCoeffs, IStream.extract, setCoeff, List.ofFn_succ] <;> rfl

/-! ## Hash_Map -/

theorem Hash_Map.modify_of_lt {β : Type} (m : Hash_Map β) (k : IndexT) (dflt : β) (f : β → β)
    (h : ∀ p ∈ m, p.1 < k) : Hash_Map.modify m k dflt f = m ++ [(k, f dflt)] := by
  induction m with
  | nil => rfl
  | cons p rest ih =>
    obtain ⟨k', v⟩ := p
    have hk : k' < k := h (k', v) (List.mem_cons_self _ _)
    have hne : ¬ k = k' := Nat.ne_of_gt hk
    have hnlt : ¬ k < k' := Nat.lt_asymm hk
    simp only [Hash_Map.modify, hne, hnlt, if_false, List.cons_append]
    rw [ih (fun p hp => h p (List.mem_cons_of_mem _ hp))]

theorem Hash_Map.modify_last {β : Type} (m : Hash_Map β) (k : IndexT) (v dflt : β) (f : β → β)
    (h : ∀ p ∈ m, p.1 < k) :
    Hash_Map.modify (m ++ [(k, v)]) k dflt f = m ++ [(k, f v)] := by
  induction m with
  | nil => simp [Hash_Map.modify]
  | cons p rest ih =>
    obtain ⟨k', w⟩ := p
    have hk : k' < k := h (k', w) (List.mem_cons_self _ _)
    have hne : ¬ k = k' := Nat.ne_of_gt hk
    have hnlt : ¬ k < k' := Nat.lt_asymm hk
    simp only [List.cons_append, Hash_Map.modify, hne, hnlt, if_false, List.append_eq]
    rw [ih (fun p hp => h p (List.mem_cons_of_mem _ hp))]

/-! ## Step C: triangulation of the inliers -/

theorem inlierFeatures_isSome (regionsL regionsR : SIFT_Regions)
    (vec_PutativeMatches : List IndMatch) (vec_inliers : List Nat)
    (hinl : ∀ x ∈ vec_inliers, x < vec_PutativeMatches.length)
    (hm : ∀ m ∈ vec_PutativeMatches,
      m.i_ < regionsL.Features.length ∧ m.j_ < regionsR.Features.length)
    (i : Nat) (hi : i < vec_inliers.length) :
    inlierFeatures regionsL regionsR vec_PutativeMatches vec_inliers i =
      some (vec_PutativeMatches[vec_inliers[i]]?.getD ⟨0, 0⟩,
        regionsL.Features[(vec_PutativeMatches[vec_inliers[i]]?.getD ⟨0, 0⟩).i_]?.getD ⟨0, 0, 0⟩,
        regionsR.Features[(vec_PutativeMatches[vec_inliers[i]]?.getD ⟨0, 0⟩).j_]?.getD ⟨0, 0, 0⟩) := by
  have h1 : vec_inliers[i] < vec_PutativeMatches.length :=
    hinl _ (List.getElem_mem hi)
  have h2 := hm _ (List.getElem_mem h1)
  simp [inlierFeatures, List.getElem?_eq_getElem, hi, h1, h2.1, h2.2]

theorem createdLandmark_key {env : Env} {regionsL regionsR : SIFT_Regions}
    {vec_PutativeMatches : List IndMatch} {vec_inliers : List Nat} {pose0 pose1 : Pose3}
    {P1 P2 : Mat34} {i : Nat} {p : IndexT × Landmark}
    (h : createdLandmark env regionsL regionsR vec_PutativeMatches vec_inliers pose0 pose1
      P1 P2 i = some p) : p.1 = i := by
  unfold createdLandmark at h
  split at h
  · cases h
  · split at h
    · cases h
    · cases h; rfl

theorem triangulateStep_eq (env : Env) (regionsL regionsR : SIFT_Regions)
    (vec_PutativeMatches : List IndMatch) (vec_inliers : List Nat) (view0 view1 : View)
    (pose0 pose1 : Pose3) (P1 P2 : Mat34) (landmarks : Landmarks) (i : Nat)
    (h0 : view0.id_view = 0) (h1 : view1.id_view = 1)
    (hkeys : ∀ p ∈ landmarks, p.1 < i)
    (hin : (inlierFeatures regionsL regionsR vec_PutativeMatches vec_inliers i).isSome) :
    triangulateStep env regionsL regionsR vec_PutativeMatches vec_inliers view0 view1
        pose0 pose1 P1 P2 landmarks i =
      some (landmarks ++
        (createdLandmark env regionsL regionsR vec_PutativeMatches vec_inliers pose0 pose1
          P1 P2 i).toList) := by
  obtain ⟨⟨m, LL, RR⟩, hf⟩ := Option.isSome_iff_exists.mp hin
  unfold triangulateStep createdLandmark
  simp only [hf, h0, h1, Option.bind_eq_bind, Option.some_bind, Option.pure_def]
  split
  · simp
  · rw [Hash_Map.modify_of_lt landmarks i _ _ hkeys, Hash_Map.modify_last _ i _ _ _ hkeys,
      Hash_Map.modify_last _ i _ _ _ hkeys]
    simp [Landmark.default, Hash_Map.modify]

theorem triangulateLoop_eq (env : Env) (regionsL regionsR : SIFT_Regions)
    (vec_PutativeMatches : List IndMatch) (vec_inliers : List Nat) (view0 view1 : View)
    (pose0 pose1 : Pose3) (P1 P2 : Mat34)
    (h0 : view0.id_view = 0) (h1 : view1.id_view = 1) (n : Nat)
    (hin : ∀ i, i < n →
      (inlierFeatures regionsL regionsR vec_PutativeMatches vec_inliers i).isSome) :
    (List.range n).foldlM
        (triangulateStep env regionsL regionsR vec_PutativeMatches vec_inliers view0 view1
          pose0 pose1 P1 P2) [] =
      some ((List.range n).filterMap
        (createdLandmark env regionsL regionsR vec_PutativeMatches vec_inliers pose0 pose1
          P1 P2)) := by
  induction n with
  | zero => rfl
  | succ n ih =>
    have hprev := ih (fun i hi => hin i (Nat.lt_succ_of_lt hi))
    have hkeys : ∀ p ∈ (List.range n).filterMap
        (createdLandmark env regionsL regionsR vec_PutativeMatches vec_inliers pose0 pose1
          P1 P2), p.1 < n := by
      intro p hp
      obtain ⟨a, ha, hap⟩ := List.mem_filterMap.mp hp
      rw [createdLandmark_key hap]
      exact List.mem_range.mp ha
    rw [List.range_succ, List.foldlM_append, hprev]
    simp only [Option.bind_eq_bind, Option.some_bind, List.foldlM_cons, List.foldlM_nil,
      List.filterMap_append]
    rw [triangulateStep_eq env regionsL regionsR vec_PutativeMatches vec_inliers view0 view1
      pose0 pose1 P1 P2 _ n h0 h1 hkeys (hin n (Nat.lt_succ_self n))]
    simp only [Option.some_bind, Option.pure_def]
    cases hc : createdLandmark env regionsL regionsR vec_PutativeMatches vec_inliers pose0 pose1
      P1 P2 n <;> simp [List.filterMap_cons, hc]

/-- Step C in closed form: when every inlier and every match is in range, the
loop ends normally and the structure lists, by increasing key, the landmarks
of the inlier positions that are not behind both cameras. -/
theorem triangulateInliers_eq (env : Env) (regionsL regionsR : SIFT_Regions)
    (vec_PutativeMatches : List IndMatch) (vec_inliers : List Nat) (imageL imageR : Image)
    (pose0 pose1 : Pose3) (P1 P2 : Mat34)
    (hinl : ∀ x ∈ vec_inliers, x < vec_PutativeMatches.length)
    (hm : ∀ m ∈ vec_PutativeMatches,
      m.i_ < regionsL.Features.length ∧ m.j_ < regionsR.Features.length) :
    triangulateInliers env regionsL regionsR vec_PutativeMatches vec_inliers
        (tinyViews imageL imageR).1 (tinyViews imageL imageR).2 pose0 pose1 P1 P2 [] =
      some ((List.range vec_inliers.length).filterMap
        (createdLandmark env regionsL regionsR vec_PutativeMatches vec_inliers pose0 pose1
          P1 P2)) := by
  unfold triangulateInliers
  apply triangulateLoop_eq _ _ _ _ _ _ _ _ _ _ _ rfl rfl
  intro i hi
  rw [inlierFeatures_isSome regionsL regionsR vec_PutativeMatches vec_inliers hinl hm i hi]
  rfl

theorem inlierFeatures_eq_some {regionsL regionsR : SIFT_Regions}
    {vec_PutativeMatches : List IndMatch} {vec_inliers : List Nat} {i : Nat} {m : IndMatch}
    {LL RR : SIOPointFeature}
    (h : inlierFeatures regionsL regionsR vec_PutativeMatches vec_inliers i = some (m, LL, RR)) :
    ∃ inl, vec_inliers[i]? = some inl ∧ vec_PutativeMatches[inl]? = some m ∧
      regionsL.Features[m.i_]? = some LL ∧ regionsR.Features[m.j_]? = some RR := by
  unfold inlierFeatures at h
  simp only [Option.bind_eq_bind, Option.bind_eq_some, Option.pure_def, Option.some.injEq,
    Prod.mk.injEq] at h
  obtain ⟨inl, h1, m', h2, LL', h3, RR', h4, rfl, rfl, rfl⟩ := h
  exact ⟨inl, h1, h2, h3, h4⟩

theorem createdLandmark_eq_some {env : Env} {regionsL regionsR : SIFT_Regions}
    {vec_PutativeMatches : List IndMatch} {vec_inliers : List Nat} {pose0 pose1 : Pose3}
    {P1 P2 : Mat34} {i : Nat} {p : IndexT × Landmark} :
    createdLandmark env regionsL regionsR vec_PutativeMatches vec_inliers pose0 pose1
        P1 P2 i = some p ↔
      ∃ m LL RR,
        inlierFeatures regionsL regionsR vec_PutativeMatches vec_inliers i = some (m, LL, RR) ∧
        ¬ (env.Depth pose0.rotation pose0.translation
              (env.TriangulateDLT P1 (homogeneous LL.coords) P2 (homogeneous RR.coords)) < 0 ∧
            env.Depth pose1.rotation pose1.translation
              (env.TriangulateDLT P1 (homogeneous LL.coords) P2 (homogeneous RR.coords)) < 0) ∧
        p = (i, ⟨env.TriangulateDLT P1 (homogeneous LL.coords) P2 (homogeneous RR.coords),
          [(0, ⟨LL.coords, m.i_⟩), (1, ⟨RR.coords, m.j_⟩)]⟩) := by
  unfold createdLandmark
  constructor
  · intro h
    split at h
    · cases h
    · rename_i m LL RR hf
      split at h
      · cases h
      · rename_i hrej
        cases h
        exact ⟨m, LL, RR, hf, hrej, rfl⟩
  · rintro ⟨m, LL, RR, hf, hrej, rfl⟩
    simp only [hf]
    rw [if_neg hrej]

theorem mem_created_iff {env : Env} {regionsL regionsR : SIFT_Regions}
    {vec_PutativeMatches : List IndMatch} {vec_inliers : List Nat} {pose0 pose1 : Pose3}
    {P1 P2 : Mat34} {n : Nat} {p : IndexT × Landmark} :
    p ∈ (List.range n).filterMap
        (createdLandmark env regionsL regionsR vec_PutativeMatches vec_inliers pose0 pose1
          P1 P2) ↔
      p.1 < n ∧ createdLandmark env regionsL regionsR vec_PutativeMatches vec_inliers pose0
        pose1 P1 P2 p.1 = some p := by
  rw [List.mem_filterMap]
  constructor
  · rintro ⟨a, ha, hap⟩
    have hk := createdLandmark_key hap
    subst hk
    exact ⟨List.mem_range.mp ha, hap⟩
  · rintro ⟨hlt, hp⟩
    exact ⟨p.1, List.mem_range.mpr hlt, hp⟩

/-- C1: in the loop of step C (inliers and matches in range) the structure is
produced, and for every inlier position `i` with triangulated point `X` a
landmark with key `i` is created if and only if it is not the case that
`Depth(pose0, X) < 0` and `Depth(pose1, X) < 0`; the landmark created holds
`X`; hence every landmark of the initialised scene is not behind both
cameras. -/
theorem C1_landmark_created_iff_not_behind_both_cameras (env : Env)
    (regionsL regionsR : SIFT_Regions) (vec_PutativeMatches : List IndMatch)
    (vec_inliers : List Nat) (imageL imageR : Image) (pose0 pose1 : Pose3) (P1 P2 : Mat34)
    (hinl : ∀ x ∈ vec_inliers, x < vec_PutativeMatches.length)
    (hm : ∀ m ∈ vec_PutativeMatches,
      m.i_ < regionsL.Features.length ∧ m.j_ < regionsR.Features.length) :
    ∃ landmarks,
      triangulateInliers env regionsL regionsR vec_PutativeMatches vec_inliers
          (tinyViews imageL imageR).1 (tinyViews imageL imageR).2 pose0 pose1 P1 P2 [] =
        some landmarks ∧
      (∀ i, i < vec_inliers.length →
        ∃ X, inlierPoint env regionsL regionsR vec_PutativeMatches vec_inliers P1 P2 i = some X ∧
          ((∃ lm, (i, lm) ∈ landmarks) ↔
            ¬ (env.Depth pose0.rotation pose0.translation X < 0 ∧
                env.Depth pose1.rotation pose1.translation X < 0)) ∧
          (∀ lm, (i, lm) ∈ landmarks → lm.X = X)) ∧
      (∀ p ∈ landmarks, p.1 < vec_inliers.length ∧
        ¬ (env.Depth pose0.rotation pose0.translation p.2.X < 0 ∧
            env.Depth pose1.rotation pose1.translation p.2.X < 0)) := by
  refine ⟨_, triangulateInliers_eq env regionsL regionsR vec_PutativeMatches vec_inliers
    imageL imageR pose0 pose1 P1 P2 hinl hm, ?_, ?_⟩
  · intro i hi
    have hf := inlierFeatures_isSome regionsL regionsR vec_PutativeMatches vec_inliers hinl hm i hi
    refine ⟨_, by rw [inlierPoint, hf]; rfl, ?_, ?_⟩
    · constructor
      · rintro ⟨lm, hmem⟩
        obtain ⟨_, hc⟩ := mem_created_iff.mp hmem
        obtain ⟨m, LL, RR, hf', hrej, _⟩ := createdLandmark_eq_some.mp hc
        rw [hf] at hf'
        cases hf'
        exact hrej
      · intro hrej
        exact ⟨_, mem_created_iff.mpr ⟨hi, createdLandmark_eq_some.mpr ⟨_, _, _, hf, hrej, rfl⟩⟩⟩
    · intro lm hmem
      obtain ⟨_, hc⟩ := mem_created_iff.mp hmem
      obtain ⟨m, LL, RR, hf', _, hp⟩ := createdLandmark_eq_some.mp hc
      rw [hf] at hf'
      cases hf'
      cases hp
      rfl
  · intro p hmem
    obtain ⟨hlt, hc⟩ := mem_created_iff.mp hmem
    obtain ⟨m, LL, RR, _, hrej, hp⟩ := createdLandmark_eq_some.mp hc
    refine ⟨hlt, ?_⟩
    rw [hp]
    exact hrej

/-- C8: in the scene that step C produces (inliers and matches in range),
every landmark, of key `i`, has exactly two observations, for view 0 and for
view 1; the first holds the position of the left keypoint
`matches[inliers[i]].i_` and that index, the second the position of the right
keypoint `matches[inliers[i]].j_` and that index. -/
theorem C8_landmark_observations_are_the_two_matched_keypoints (env : Env)
    (regionsL regionsR : SIFT_Regions) (vec_PutativeMatches : List IndMatch)
    (vec_inliers : List Nat) (imageL imageR : Image) (pose0 pose1 : Pose3) (P1 P2 : Mat34)
    (hinl : ∀ x ∈ vec_inliers, x < vec_PutativeMatches.length)
    (hm : ∀ m ∈ vec_PutativeMatches,
      m.i_ < regionsL.Features.length ∧ m.j_ < regionsR.Features.length) :
    ∃ landmarks,
      triangulateInliers env regionsL regionsR vec_PutativeMatches vec_inliers
          (tinyViews imageL imageR).1 (tinyViews imageL imageR).2 pose0 pose1 P1 P2 [] =
        some landmarks ∧
      ∀ p ∈ landmarks, ∃ inl m posL posR,
        vec_inliers[p.1]? = some inl ∧ vec_PutativeMatches[inl]? = some m ∧
        regionsL.GetRegionsPositions[m.i_]? = some posL ∧
        regionsR.GetRegionsPositions[m.j_]? = some posR ∧
        p.2.obs = [(0, ⟨posL, m.i_⟩), (1, ⟨posR, m.j_⟩)] := by
  refine ⟨_, triangulateInliers_eq env regionsL regionsR vec_PutativeMatches vec_inliers
    imageL imageR pose0 pose1 P1 P2 hinl hm, ?_⟩
  intro p hmem
  obtain ⟨_, hc⟩ := mem_created_iff.mp hmem
  obtain ⟨m, LL, RR, hf, _, hp⟩ := createdLandmark_eq_some.mp hc
  obtain ⟨inl, h1, h2, h3, h4⟩ := inlierFeatures_eq_some hf
  refine ⟨inl, m, LL.coords, RR.coords, h1, h2, ?_, ?_, ?_⟩
  · simp [SIFT_Regions.GetRegionsPositions, h3]
  · simp [SIFT_Regions.GetRegionsPositions, h4]
  · rw [hp]

/-! ## The export loop -/

theorem exportFold (regionsL regionsR : SIFT_Regions) (vec_PutativeMatches : List IndMatch)
    (vec_inliers : List Nat) (R1 : Mat3) (t1 : Vec3) (l : Landmarks) :
    ∀ files : PointFiles,
    (∀ p ∈ l, ∃ o1 o2 inl m d1 d2,
      Hash_Map.at p.2.obs 0 = some o1 ∧ Hash_Map.at p.2.obs 1 = some o2 ∧
      vec_inliers[p.1]? = some inl ∧ vec_PutativeMatches[inl]? = some m ∧
      regionsL.Descriptors[m.i_]? = some d1 ∧ regionsR.Descriptors[m.j_]? = some d2 ∧
      o1.id_feat = m.i_ ∧ o2.id_feat = m.j_) →
    ∃ out,
      l.foldlM (exportStep regionsL regionsR vec_PutativeMatches vec_inliers R1 t1) files =
        some out ∧
      out.X = files.X ++ l.map (fun p =>
        [exportX R1 t1 p.2.X 0, exportX R1 t1 p.2.X 1, exportX R1 t1 p.2.X 2]) ∧
      out.x1.map some = files.x1.map some ++
        l.map (fun p => (Hash_Map.at p.2.obs 0).map (fun o => [o.x 0, o.x 1])) ∧
      out.x2.map some = files.x2.map some ++
        l.map (fun p => (Hash_Map.at p.2.obs 1).map (fun o => [o.x 0, o.x 1])) ∧
      out.desc1.map some = files.desc1.map some ++
        l.map (fun p => (Hash_Map.at p.2.obs 0).bind (fun o => regionsL.Descriptors[o.id_feat]?)) ∧
      out.desc2.map some = files.desc2.map some ++
        l.map (fun p => (Hash_Map.at p.2.obs 1).bind (fun o => regionsR.Descriptors[o.id_feat]?)) := by
  induction l with
  | nil =>
    intro files _
    exact ⟨files, rfl, by simp, by simp, by simp, by simp, by simp⟩
  | cons p rest ih =>
    intro files h
    obtain ⟨o1, o2, inl, m, d1, d2, h1, h2, h3, h4, h5, h6, h7, h8⟩ :=
      h p (List.mem_cons_self _ _)
    have hstep : exportStep regionsL regionsR vec_PutativeMatches vec_inliers R1 t1 files p =
        some { X := files.X ++ [[exportX R1 t1 p.2.X 0, exportX R1 t1 p.2.X 1,
                 exportX R1 t1 p.2.X 2]]
               x1 := files.x1 ++ [[o1.x 0, o1.x 1]]
               x2 := files.x2 ++ [[o2.x 0, o2.x 1]]
               desc1 := files.desc1 ++ [d1]
               desc2 := files.desc2 ++ [d2] } := by
      simp [exportStep, h1, h2, h3, h4, h5, h6]
    obtain ⟨out, hfold, hX, hx1, hx2, hd1, hd2⟩ :=
      ih _ (fun q hq => h q (List.mem_cons_of_mem _ hq))
    refine ⟨out, ?_, ?_, ?_, ?_, ?_, ?_⟩
    · simp only [List.foldlM_cons, hstep, Option.bind_eq_bind, Option.some_bind]
      exact hfold
    · simp [hX]
    · simp [hx1, h1]
    · simp [hx2, h2]
    · simp [hd1, h1, h7, h5]
    · simp [hd2, h2, h8, h6]

/-- C9: let `refined` be the structure after bundle adjustment, with the keys
and observations of the structure built by step C (inliers and matches in
range, one descriptor per keypoint). Then the export loop ends normally; each
of the five streams X, x1, x2, desc1, desc2 gets one line per landmark, in the
order of the landmarks; the k-th lines are the exported position, the view-0
and view-1 observations of the k-th landmark and the descriptors of the
keypoints that these observations record; every key is smaller than the
number of inliers. -/
theorem C9_per_landmark_outputs_are_parallel (env : Env) (regionsL regionsR : SIFT_Regions)
    (vec_PutativeMatches : List IndMatch) (vec_inliers : List Nat) (imageL imageR : Image)
    (pose0 pose1 : Pose3) (P1 P2 : Mat34) (R1 : Mat3) (t1 : Vec3) (refined : Landmarks)
    (hinl : ∀ x ∈ vec_inliers, x < vec_PutativeMatches.length)
    (hm : ∀ m ∈ vec_PutativeMatches,
      m.i_ < regionsL.Features.length ∧ m.j_ < regionsR.Features.length)
    (hdL : regionsL.Descriptors.length = regionsL.Features.length)
    (hdR : regionsR.Descriptors.length = regionsR.Features.length)
    (hkeep :
      (triangulateInliers env regionsL regionsR vec_PutativeMatches vec_inliers
          (tinyViews imageL imageR).1 (tinyViews imageL imageR).2 pose0 pose1 P1 P2 []).map
        (List.map (fun p => (p.1, p.2.obs))) =
      some (refined.map (fun p => (p.1, p.2.obs)))) :
    ∃ files,
      exportLandmarks regionsL regionsR vec_PutativeMatches vec_inliers R1 t1 refined =
        some files ∧
      files.X.length = refined.length ∧ files.x1.length = refined.length ∧
      files.x2.length = refined.length ∧ files.desc1.length = refined.length ∧
      files.desc2.length = refined.length ∧
      files.X = refined.map (fun p =>
        [exportX R1 t1 p.2.X 0, exportX R1 t1 p.2.X 1, exportX R1 t1 p.2.X 2]) ∧
      files.x1.map some =
        refined.map (fun p => (Hash_Map.at p.2.obs 0).map (fun o => [o.x 0, o.x 1])) ∧
      files.x2.map some =
        refined.map (fun p => (Hash_Map.at p.2.obs 1).map (fun o => [o.x 0, o.x 1])) ∧
      files.desc1.map some =
        refined.map (fun p =>
          (Hash_Map.at p.2.obs 0).bind (fun o => regionsL.Descriptors[o.id_feat]?)) ∧
      files.desc2.map some =
        refined.map (fun p =>
          (Hash_Map.at p.2.obs 1).bind (fun o => regionsR.Descriptors[o.id_feat]?)) ∧
      ∀ p ∈ refined, p.1 < vec_inliers.length := by
  rw [triangulateInliers_eq env regionsL regionsR vec_PutativeMatches vec_inliers imageL imageR
    pose0 pose1 P1 P2 hinl hm, Option.map_some', Option.some.injEq] at hkeep
  have hentry : ∀ p ∈ refined, p.1 < vec_inliers.length ∧ ∃ o1 o2 inl m d1 d2,
      Hash_Map.at p.2.obs 0 = some o1 ∧ Hash_Map.at p.2.obs 1 = some o2 ∧
      vec_inliers[p.1]? = some inl ∧ vec_PutativeMatches[inl]? = some m ∧
      regionsL.Descriptors[m.i_]? = some d1 ∧ regionsR.Descriptors[m.j_]? = some d2 ∧
      o1.id_feat = m.i_ ∧ o2.id_feat = m.j_ := by
    intro p hp
    have hmem : (p.1, p.2.obs) ∈ refined.map (fun p => (p.1, p.2.obs)) :=
      List.mem_map.mpr ⟨p, hp, rfl⟩
    rw [← hkeep] at hmem
    obtain ⟨q, hq, hqp⟩ := List.mem_map.mp hmem
    obtain ⟨hlt, hc⟩ := mem_created_iff.mp hq
    obtain ⟨m, LL, RR, hf, _, hq'⟩ := createdLandmark_eq_some.mp hc
    obtain ⟨inl, h1, h2, h3, h4⟩ := inlierFeatures_eq_some hf
    have hkey : q.1 = p.1 := (Prod.mk.inj hqp).1
    have hobs : q.2.obs = p.2.obs := (Prod.mk.inj hqp).2
    have hobs' : p.2.obs = [(0, ⟨LL.coords, m.i_⟩), (1, ⟨RR.coords, m.j_⟩)] := by
      rw [← hobs, hq']
    have hiL : m.i_ < regionsL.Descriptors.length := by
      rw [hdL]; exact (List.getElem?_eq_some.mp h3).1
    have hjR : m.j_ < regionsR.Descriptors.length := by
      rw [hdR]; exact (List.getElem?_eq_some.mp h4).1
    rw [hkey] at hlt h1
    refine ⟨hlt, ⟨LL.coords, m.i_⟩, ⟨RR.coords, m.j_⟩, inl, m, regionsL.Descriptors[m.i_],
      regionsR.Descriptors[m.j_], ?_, ?_, h1, h2, List.getElem?_eq_getElem hiL,
      List.getElem?_eq_getElem hjR, rfl, rfl⟩
    · rw [hobs']; simp [Hash_Map.at]
    · rw [hobs']; simp [Hash_Map.at]
  obtain ⟨out, hfold, hX, hx1, hx2, hd1, hd2⟩ :=
    exportFold regionsL regionsR vec_PutativeMatches vec_inliers R1 t1 refined
      ⟨[], [], [], [], []⟩ (fun p hp => (hentry p hp).2)
  simp only [List.nil_append, List.map_nil] at hX hx1 hx2 hd1 hd2
  refine ⟨out, hfold, ?_, ?_, ?_, ?_, ?_, hX, hx1, hx2, hd1, hd2, fun p hp => (hentry p hp).1⟩
  · rw [hX, List.length_map]
  · have := congrArg List.length hx1
    simpa using this
  · have := congrArg List.length hx2
    simpa using this
  · have := congrArg List.length hd1
    simpa using this
  · have := congrArg List.length hd2
    simpa using this

/-! ## Control flow of `main` -/

theorem setupIntrinsics_isSome (imageL imageR : Image) (K : Mat3) :
    (setupIntrinsics imageL imageR K).isSome = true := rfl

theorem reconstruct_status_ne_failure (env : Env) (args : Args) (imageL imageR : Image)
    (regionsL regionsR : SIFT_Regions) (vec_PutativeMatches : List IndMatch) (K : Mat3)
    (info : RelativePose_Info) :
    (reconstruct env args imageL imageR regionsL regionsR vec_PutativeMatches K info).status ≠
      Status.EXIT_FAILURE := by
  unfold reconstruct
  simp only [setupIntrinsics, iBAType]
  split
  · split <;> (try split) <;> simp
  · simp

theorem main_status (env : Env) (args : Args) :
    (main env args).status = (essentialGeometry env args (matchImages env args).1).status := rfl

theorem essentialGeometry_closed (env : Env) (args : Args) (m : Matched)
    (h : env.ifstream args.sIntrinsicFilename = none) :
    essentialGeometry env args m =
      ⟨Status.EXIT_FAILURE, [Event.cerr "Invalid input K.txt file",
        Event.cerr "Cannot read intrinsic parameters."]⟩ := by
  simp [essentialGeometry, readIntrinsic, h]

theorem essentialGeometry_estimation_failed (env : Env) (args : Args) (m : Matched)
    (toks : List Tok) (h : env.ifstream args.sIntrinsicFilename = some toks)
    (he : estimate env m (readIntrinsic env.ifstream args.sIntrinsicFilename env.K_uninit).2.1 =
      some none) :
    essentialGeometry env args m =
      ⟨Status.EXIT_FAILURE, [Event.call_robustRelativePose,
        Event.cerr " /!\\ Robust relative pose estimation failure."]⟩ := by
  simp only [readIntrinsic, h] at he
  simp [essentialGeometry, readIntrinsic, h, he]

theorem essentialGeometry_success (env : Env) (args : Args) (m : Matched)
    (h : (essentialGeometry env args m).status = Status.EXIT_SUCCESS) :
    (env.ifstream args.sIntrinsicFilename).isSome ∧
      ∃ info, estimate env m
        (readIntrinsic env.ifstream args.sIntrinsicFilename env.K_uninit).2.1 =
          some (some info) := by
  cases hf : env.ifstream args.sIntrinsicFilename with
  | none =>
    rw [essentialGeometry_closed env args m hf] at h
    cases h
  | some toks =>
    refine ⟨rfl, ?_⟩
    cases he : estimate env m
        (readIntrinsic env.ifstream args.sIntrinsicFilename env.K_uninit).2.1 with
    | none =>
      simp only [readIntrinsic, hf] at he
      simp [essentialGeometry, readIntrinsic, hf, he] at h
    | some r =>
      cases r with
      | none =>
        rw [essentialGeometry_estimation_failed env args m toks hf he] at h
        cases h
      | some info => exact ⟨info, rfl⟩

/-! ## The concrete run -/

theorem sampleRun_status (toks : List Tok) (adjustOk : Bool) :
    (main (sampleEnv true (some toks) (some sampleInfo) adjustOk) sampleArgs).status =
      Status.EXIT_SUCCESS := by
  norm_num [main, Run.after, essentialGeometry, matchImages, sampleEnv, readIntrinsic, estimate,
    putativePoints, sampleRegions, SIFT_Regions.GetRegionsPositions, reconstruct, tinyViews,
    setupIntrinsics, iBAType, bSharedIntrinsic, Hash_Map.at, Hash_Map.modify,
    triangulateInliers, triangulateStep, inlierFeatures, sampleInfo, exportLandmarks,
    exportStep, Hash_Map.touch, Hash_Map.index, Pose3.default, Landmark.default,
    List.range_succ]

theorem blankRun_status (toks : List Tok) (adjustOk : Bool) :
    (main (sampleEnv false (some toks) (some sampleInfoNoInlier) adjustOk) sampleArgs).status =
      Status.EXIT_SUCCESS := by
  norm_num [main, Run.after, essentialGeometry, matchImages, sampleEnv, readIntrinsic, estimate,
    putativePoints, sampleRegions, SIFT_Regions.GetRegionsPositions, reconstruct, tinyViews,
    setupIntrinsics, iBAType, bSharedIntrinsic, Hash_Map.at, Hash_Map.modify,
    triangulateInliers, triangulateStep, inlierFeatures, sampleInfoNoInlier, exportLandmarks,
    exportStep, Hash_Map.touch, Hash_Map.index, Pose3.default, Landmark.default]

theorem sampleRun_calls_estimator (toks : List Tok) (adjustOk : Bool) :
    Event.call_robustRelativePose ∈
      (main (sampleEnv true (some toks) (some sampleInfo) adjustOk) sampleArgs).out := by
  simp [main, Run.after, essentialGeometry, matchImages, sampleEnv, readIntrinsic, estimate,
    putativePoints, sampleRegions, SIFT_Regions.GetRegionsPositions]

theorem sampleRun_estimate (toks : List Tok) (adjustOk : Bool) :
    estimate (sampleEnv true (some toks) (some sampleInfo) adjustOk)
      (matchImages (sampleEnv true (some toks) (some sampleInfo) adjustOk) sampleArgs).1
      (mainK (sampleEnv true (some toks) (some sampleInfo) adjustOk) sampleArgs) =
        some (some sampleInfo) := by
  simp [matchImages, sampleEnv, estimate, putativePoints, sampleRegions,
    SIFT_Regions.GetRegionsPositions]

/-- The flags returned by `ReadImage` are dropped: they do not change the run. -/
theorem main_withReadFlags (env : Env) (args : Args) (flag : String → Bool) :
    main (env.withReadFlags flag) args = main env args := rfl

/-- The flag returned by `Adjust` is dropped: it does not change the run. -/
theorem main_withAdjustFlag (env : Env) (args : Args)
    (flag : SfM_Data → Optimize_Options → Bool) :
    main (env.withAdjustFlag flag) args = main env args := rfl

theorem main_closed (env : Env) (args : Args)
    (h : env.ifstream args.sIntrinsicFilename = none) :
    (main env args).status = Status.EXIT_FAILURE ∧
      (main env args).out = (matchImages env args).2 ++
        [Event.cerr "Invalid input K.txt file", Event.cerr "Cannot read intrinsic parameters."] := by
  unfold main
  rw [essentialGeometry_closed env args _ h]
  exact ⟨rfl, rfl⟩

theorem main_estimation_failed (env : Env) (args : Args) (toks : List Tok)
    (h : env.ifstream args.sIntrinsicFilename = some toks)
    (he : estimate env (matchImages env args).1 (mainK env args) = some none) :
    (main env args).status = Status.EXIT_FAILURE ∧
      (main env args).out = (matchImages env args).2 ++
        [Event.call_robustRelativePose,
          Event.cerr " /!\\ Robust relative pose estimation failure."] := by
  unfold main
  rw [essentialGeometry_estimation_failed env args _ toks h he]
  exact ⟨rfl, rfl⟩

theorem matchImages_no_result (env : Env) (args : Args) :
    ∀ e ∈ (matchImages env args).2, e.isResult = false ∧ e ≠ Event.call_robustRelativePose := by
  intro e he
  simp only [matchImages, List.mem_cons, List.mem_singleton, List.not_mem_nil, or_false] at he
  rcases he with rfl | rfl | rfl | rfl <;> exact ⟨rfl, by simp⟩

/-- C4, as stated, fails. In the first run both calls of `ReadImage` report
failure (and leave empty images), in the second the calibration file is
readable but empty; both runs return the success status. -/
theorem C4_exit_status_counterexample :
    ((sampleEnv false (some sampleCalibration) (some sampleInfoNoInlier) true).ReadImage
        sampleArgs.sImgFilename1).1 = false ∧
      ((sampleEnv false (some sampleCalibration) (some sampleInfoNoInlier) true).ReadImage
        sampleArgs.sImgFilename2).1 = false ∧
      (main (sampleEnv false (some sampleCalibration) (some sampleInfoNoInlier) true)
        sampleArgs).status = Status.EXIT_SUCCESS ∧
      (sampleEnv true (some []) (some sampleInfo) true).ifstream sampleArgs.sIntrinsicFilename =
        some [] ∧
      (main (sampleEnv true (some []) (some sampleInfo) true) sampleArgs).status =
        Status.EXIT_SUCCESS :=
  ⟨rfl, rfl, blankRun_status sampleCalibration true, rfl, sampleRun_status [] true⟩

/-- C4, amended: `main` returns the success status only if the calibration
file could be opened and the robust pose estimation succeeded; it returns
`EXIT_FAILURE` when the file cannot be opened and when the estimation fails;
the set-up of the scene intrinsics never takes its failure branch. -/
theorem C4_exit_status_follows_calibration_and_estimation (env : Env) (args : Args) :
    ((main env args).status = Status.EXIT_SUCCESS →
        (env.ifstream args.sIntrinsicFilename).isSome ∧
        ∃ info, estimate env (matchImages env args).1 (mainK env args) = some (some info)) ∧
      (env.ifstream args.sIntrinsicFilename = none →
        (main env args).status = Status.EXIT_FAILURE) ∧
      (estimate env (matchImages env args).1 (mainK env args) = some none →
        (main env args).status = Status.EXIT_FAILURE) ∧
      (∀ imageL imageR K, (setupIntrinsics imageL imageR K).isSome) := by
  refine ⟨fun h => essentialGeometry_success env args _ h, fun h => (main_closed env args h).1,
    ?_, fun _ _ _ => rfl⟩
  intro he
  cases hf : env.ifstream args.sIntrinsicFilename with
  | none => exact (main_closed env args hf).1
  | some toks => exact (main_estimation_failed env args toks hf he).1

/-- Witness of C4 (amended): the concrete run with one keypoint per image
returns the success status, its calibration file was opened and its estimation
succeeded. -/
theorem C4_exit_status_witness :
    (main (sampleEnv true (some sampleCalibration) (some sampleInfo) true) sampleArgs).status =
        Status.EXIT_SUCCESS ∧
      ((sampleEnv true (some sampleCalibration) (some sampleInfo) true).ifstream
          sampleArgs.sIntrinsicFilename).isSome ∧
      ∃ info, estimate (sampleEnv true (some sampleCalibration) (some sampleInfo) true)
        (matchImages (sampleEnv true (some sampleCalibration) (some sampleInfo) true)
          sampleArgs).1
        (mainK (sampleEnv true (some sampleCalibration) (some sampleInfo) true) sampleArgs) =
          some (some info) :=
  ⟨sampleRun_status sampleCalibration true,
   (C4_exit_status_follows_calibration_and_estimation
      (sampleEnv true (some sampleCalibration) (some sampleInfo) true) sampleArgs).1
     (sampleRun_status sampleCalibration true)⟩

/-- C5, as stated, fails: for a calibration file that can be opened but is
empty (no numeric value at all) `readIntrinsic` returns true, and `main` goes
on to call the robust pose estimation and returns the success status. -/
theorem C5_malformed_calibration_counterexample :
    (¬ ∃ v, wellFormedCalibration [] v) ∧
      (readIntrinsic (fun _ => some []) "K.txt" 0).1 = true ∧
      Event.call_robustRelativePose ∈
        (main (sampleEnv true (some []) (some sampleInfo) true) sampleArgs).out ∧
      (main (sampleEnv true (some []) (some sampleInfo) true) sampleArgs).status =
        Status.EXIT_SUCCESS := by
  refine ⟨?_, rfl, sampleRun_calls_estimator [] true, sampleRun_status [] true⟩
  rintro ⟨v, rest, h⟩
  simp [List.ofFn_succ] at h

/-- C5, amended: `readIntrinsic` returns true exactly when the file can be
opened (its content is not validated); when the file cannot be opened it
returns false and `main` returns `EXIT_FAILURE` without calling the robust
pose estimation; for a file that begins with nine numeric values, `K(j,i)` is
the `(3*j+i)`-th value. -/
theorem C5_readIntrinsic_checks_only_that_the_file_opens (env : Env) (args : Args)
    (fs : String → Option (List Tok)) (fileName : String) (K : Mat3) :
    ((readIntrinsic fs fileName K).1 = true ↔ (fs fileName).isSome) ∧
      (env.ifstream args.sIntrinsicFilename = none →
        (readIntrinsic env.ifstream args.sIntrinsicFilename env.K_uninit).1 = false ∧
        (main env args).status = Status.EXIT_FAILURE ∧
        Event.call_robustRelativePose ∉ (main env args).out) ∧
      (∀ toks v, fs fileName = some toks → wellFormedCalibration toks v →
        ∀ j i : Fin 3, (readIntrinsic fs fileName K).2.1 j i = v ⟨3 * j.val + i.val, by omega⟩) := by
  refine ⟨by rw [readIntrinsic_flag], ?_, ?_⟩
  · intro h
    refine ⟨by rw [readIntrinsic_flag, h]; rfl, (main_closed env args h).1, ?_⟩
    rw [(main_closed env args h).2]
    intro hmem
    rcases List.mem_append.mp hmem with hm | hm
    · exact (matchImages_no_result env args _ hm).2 rfl
    · simp at hm
  · rintro toks v hf ⟨rest, rfl⟩ j i
    simp only [readIntrinsic, hf]
    exact readCoeffs_wellFormed v rest K j i

/-- Witness of C5 (amended): with no calibration file the concrete run fails
before the estimator is called; from the concrete calibration file
`readIntrinsic` reads `K(1,2) = 3/2`, its sixth value. -/
theorem C5_readIntrinsic_witness :
    ((readIntrinsic (sampleEnv true none (some sampleInfo) true).ifstream
          sampleArgs.sIntrinsicFilename
          (sampleEnv true none (some sampleInfo) true).K_uninit).1 = false ∧
        (main (sampleEnv true none (some sampleInfo) true) sampleArgs).status =
          Status.EXIT_FAILURE ∧
        Event.call_robustRelativePose ∉
          (main (sampleEnv true none (some sampleInfo) true) sampleArgs).out) ∧
      (readIntrinsic (fun _ => some sampleCalibration) "K.txt" 0).2.1 1 2 =
        sampleCalibrationValues 5 :=
  ⟨(C5_readIntrinsic_checks_only_that_the_file_opens (sampleEnv true none (some sampleInfo) true)
      sampleArgs (fun _ => some sampleCalibration) "K.txt" 0).2.1 rfl,
   (C5_readIntrinsic_checks_only_that_the_file_opens (sampleEnv true none (some sampleInfo) true)
      sampleArgs (fun _ => some sampleCalibration) "K.txt" 0).2.2 sampleCalibration
      sampleCalibrationValues rfl
      ⟨[], by simp [sampleCalibration, sampleCalibrationValues, List.ofFn_succ]⟩ 1 2⟩

/-- C6: whenever the robust pose estimation of the run reports failure, `main`
returns `EXIT_FAILURE` and none of its events is the posture, center, X, x1,
x2, desc1 or desc2 file, a scene snapshot, or the call of the bundle
adjustment. -/
theorem C6_estimation_failure_aborts_without_output (env : Env) (args : Args)
    (he : estimate env (matchImages env args).1 (mainK env args) = some none) :
    (main env args).status = Status.EXIT_FAILURE ∧
      ∀ e ∈ (main env args).out, e.isResult = false := by
  cases hf : env.ifstream args.sIntrinsicFilename with
  | none =>
    refine ⟨(main_closed env args hf).1, ?_⟩
    rw [(main_closed env args hf).2]
    intro e hmem
    rcases List.mem_append.mp hmem with hm | hm
    · exact (matchImages_no_result env args e hm).1
    · simp only [List.mem_cons, List.mem_singleton, List.not_mem_nil, or_false] at hm
      rcases hm with rfl | rfl <;> rfl
  | some toks =>
    refine ⟨(main_estimation_failed env args toks hf he).1, ?_⟩
    rw [(main_estimation_failed env args toks hf he).2]
    intro e hmem
    rcases List.mem_append.mp hmem with hm | hm
    · exact (matchImages_no_result env args e hm).1
    · simp only [List.mem_cons, List.mem_singleton, List.not_mem_nil, or_false] at hm
      rcases hm with rfl | rfl <;> rfl

/-- Witness of C6: the concrete run whose estimator reports failure. -/
theorem C6_estimation_failure_witness :
    estimate (sampleEnv true (some sampleCalibration) none true)
        (matchImages (sampleEnv true (some sampleCalibration) none true) sampleArgs).1
        (mainK (sampleEnv true (some sampleCalibration) none true) sampleArgs) = some none ∧
      ((main (sampleEnv true (some sampleCalibration) none true) sampleArgs).status =
          Status.EXIT_FAILURE ∧
        ∀ e ∈ (main (sampleEnv true (some sampleCalibration) none true) sampleArgs).out,
          e.isResult = false) :=
  ⟨by simp [matchImages, sampleEnv, estimate, putativePoints, sampleRegions,
      SIFT_Regions.GetRegionsPositions],
   C6_estimation_failure_aborts_without_output
     (sampleEnv true (some sampleCalibration) none true) sampleArgs
     (by simp [matchImages, sampleEnv, estimate, putativePoints, sampleRegions,
       SIFT_Regions.GetRegionsPositions])⟩

/-- C7, as stated, fails: the concrete run in which `Adjust` returns false
calls `Adjust`, returns the success status, and is equal, in exit status and
in every event, to the run in which `Adjust` returns true. -/
theorem C7_adjustment_failure_counterexample :
    (∀ scene options,
        ((sampleEnv true (some sampleCalibration) (some sampleInfo) false).Adjust scene
          options).1 = false) ∧
      (∀ scene options,
        ((sampleEnv true (some sampleCalibration) (some sampleInfo) true).Adjust scene
          options).1 = true) ∧
      (main (sampleEnv true (some sampleCalibration) (some sampleInfo) false) sampleArgs).status =
        Status.EXIT_SUCCESS ∧
      main (sampleEnv true (some sampleCalibration) (some sampleInfo) false) sampleArgs =
        main (sampleEnv true (some sampleCalibration) (some sampleInfo) true) sampleArgs :=
  ⟨fun _ _ => rfl, fun _ _ => rfl, sampleRun_status sampleCalibration false,
   main_withAdjustFlag (sampleEnv true (some sampleCalibration) (some sampleInfo) true)
     sampleArgs (fun _ _ => false)⟩

/-! ## What `main` exports after the bundle adjustment -/

theorem reconstruct_eq (env : Env) (args : Args) (imageL imageR : Image)
    (regionsL regionsR : SIFT_Regions) (vec_PutativeMatches : List IndMatch) (K : Mat3)
    (info : RelativePose_Info) :
    reconstruct env args imageL imageR regionsL regionsR vec_PutativeMatches K info =
      match triangulateInliers env regionsL regionsR vec_PutativeMatches info.vec_inliers
          (tinyViews imageL imageR).1 (tinyViews imageL imageR).2 ⟨1, 0⟩ info.relativePose
          (env.get_projective_equivalent
            (IntrinsicBase.Pinhole ⟨imageL.Width, imageL.Height, K 0 0, K 0 2, K 1 2⟩) ⟨1, 0⟩)
          (env.get_projective_equivalent
            (IntrinsicBase.Pinhole ⟨imageL.Width, imageL.Height, K 0 0, K 0 2, K 1 2⟩)
            info.relativePose) [] with
      | none => ⟨Status.undefined, []⟩
      | some landmarks =>
        match exportLandmarks regionsL regionsR vec_PutativeMatches info.vec_inliers
            (refinedPose1 env (initialScene imageL imageR K info landmarks)).rotation
            (refinedPose1 env (initialScene imageL imageR K info landmarks)).translation
            (adjustedScene env (initialScene imageL imageR K info landmarks)).structure_ with
        | none =>
          ⟨Status.undefined,
            [Event.Save (args.sOutDir ++ "\\EssentialGeometry_start_" ++ args.sOutPrefix ++ ".ply")
               (initialScene imageL imageR K info landmarks),
             Event.call_Adjust,
             Event.posture (args.sOutDir ++ "\\posture_" ++ args.sOutPrefix ++ ".txt")
               (matrixLines (exportedPose
                 (refinedPose1 env (initialScene imageL imageR K info landmarks))
                 (refinedPose2 env (initialScene imageL imageR K info landmarks))).rotation),
             Event.center (args.sOutDir ++ "\\center_" ++ args.sOutPrefix ++ ".txt")
               (vectorLines (exportedPose
                 (refinedPose1 env (initialScene imageL imageR K info landmarks))
                 (refinedPose2 env (initialScene imageL imageR K info landmarks))).translation)]⟩
        | some files =>
          ⟨Status.EXIT_SUCCESS,
            [Event.Save (args.sOutDir ++ "\\EssentialGeometry_start_" ++ args.sOutPrefix ++ ".ply")
               (initialScene imageL imageR K info landmarks),
             Event.call_Adjust,
             Event.posture (args.sOutDir ++ "\\posture_" ++ args.sOutPrefix ++ ".txt")
               (matrixLines (exportedPose
                 (refinedPose1 env (initialScene imageL imageR K info landmarks))
                 (refinedPose2 env (initialScene imageL imageR K info landmarks))).rotation),
             Event.center (args.sOutDir ++ "\\center_" ++ args.sOutPrefix ++ ".txt")
               (vectorLines (exportedPose
                 (refinedPose1 env (initialScene imageL imageR K info landmarks))
                 (refinedPose2 env (initialScene imageL imageR K info landmarks))).translation),
             Event.of_X (args.sOutDir ++ "\\X_" ++ args.sOutPrefix ++ ".txt") files.X,
             Event.of_x1 (args.sOutDir ++ "\\x1_" ++ args.sOutPrefix ++ ".txt") files.x1,
             Event.of_x2 (args.sOutDir ++ "\\x2_" ++ args.sOutPrefix ++ ".txt") files.x2,
             Event.of_desc1 (args.sOutDir ++ "\\desc1_" ++ args.sOutPrefix ++ ".txt") files.desc1,
             Event.of_desc2 (args.sOutDir ++ "\\desc2_" ++ args.sOutPrefix ++ ".txt") files.desc2,
             Event.Save
               (args.sOutDir ++ "\\EssentialGeometry_refined_" ++ args.sOutPrefix ++ "_.ply")
               (snapshotScene env (initialScene imageL imageR K info landmarks))]⟩ := by
  unfold reconstruct
  simp only [setupIntrinsics, iBAType, tinyViews, bSharedIntrinsic]
  rfl

theorem exportFold_of_some (regionsL regionsR : SIFT_Regions)
    (vec_PutativeMatches : List IndMatch) (vec_inliers : List Nat) (R1 : Mat3) (t1 : Vec3)
    (l : Landmarks) :
    ∀ files out : PointFiles,
    l.foldlM (exportStep regionsL regionsR vec_PutativeMatches vec_inliers R1 t1) files =
      some out →
    out.X = files.X ++ l.map (fun p =>
      [exportX R1 t1 p.2.X 0, exportX R1 t1 p.2.X 1, exportX R1 t1 p.2.X 2]) ∧
    out.x1.map some = files.x1.map some ++
      l.map (fun p => (Hash_Map.at p.2.obs 0).map (fun o => [o.x 0, o.x 1])) ∧
    out.x2.map some = files.x2.map some ++
      l.map (fun p => (Hash_Map.at p.2.obs 1).map (fun o => [o.x 0, o.x 1])) ∧
    out.desc1.map some = files.desc1.map some ++
      l.map (fun p => (vec_inliers[p.1]?.bind (fun inl => vec_PutativeMatches[inl]?)).bind
        (fun m => regionsL.Descriptors[m.i_]?)) ∧
    out.desc2.map some = files.desc2.map some ++
      l.map (fun p => (vec_inliers[p.1]?.bind (fun inl => vec_PutativeMatches[inl]?)).bind
        (fun m => regionsR.Descriptors[m.j_]?)) := by
  induction l with
  | nil =>
    intro files out h
    simp only [List.foldlM_nil, Option.pure_def, Option.some.injEq] at h
    subst h
    simp
  | cons p rest ih =>
    intro files out h
    simp only [List.foldlM_cons, Option.bind_eq_bind, Option.bind_eq_some] at h
    obtain ⟨files1, hstep, hrest⟩ := h
    unfold exportStep at hstep
    simp only [Option.bind_eq_bind, Option.bind_eq_some, Option.pure_def, Option.some.injEq]
      at hstep
    obtain ⟨o1, h1, o2, h2, inl, h3, m, h4, d1, h5, d2, h6, rfl⟩ := hstep
    obtain ⟨hX, hx1, hx2, hd1, hd2⟩ := ih _ _ hrest
    refine ⟨?_, ?_, ?_, ?_, ?_⟩
    · simp [hX]
    · simp [hx1, h1]
    · simp [hx2, h2]
    · simp [hd1, h3, h4, h5]
    · simp [hd2, h3, h4, h6]

theorem essentialGeometry_estimated (env : Env) (args : Args) (m : Matched) (toks : List Tok)
    (info : RelativePose_Info) (h : env.ifstream args.sIntrinsicFilename = some toks)
    (he : estimate env m (readIntrinsic env.ifstream args.sIntrinsicFilename env.K_uninit).2.1 =
      some (some info)) :
    essentialGeometry env args m =
      Run.after
        [Event.call_robustRelativePose,
         Event.cout_essential info.found_residual_precision info.vec_inliers.length
           m.vec_PutativeMatches.length,
         Event.InlierMatches2SVG
           (args.sOutDir ++ "\\04_ACRansacEssential_" ++ args.sOutPrefix ++ ".svg")
           info.vec_inliers.length,
         Event.cout_Rt info.relativePose.rotation info.relativePose.translation]
        (reconstruct env args m.imageL m.imageR m.regionsL m.regionsR m.vec_PutativeMatches
          (readIntrinsic env.ifstream args.sIntrinsicFilename env.K_uninit).2.1 info) := by
  simp only [readIntrinsic, h] at he
  simp [essentialGeometry, readIntrinsic, h, he]

theorem main_success (env : Env) (args : Args)
    (h : (main env args).status = Status.EXIT_SUCCESS) :
    ∃ info landmarks files,
      estimate env (matchImages env args).1 (mainK env args) = some (some info) ∧
      triangulateInliers env (matchImages env args).1.regionsL (matchImages env args).1.regionsR
          (matchImages env args).1.vec_PutativeMatches info.vec_inliers
          (tinyViews (matchImages env args).1.imageL (matchImages env args).1.imageR).1
          (tinyViews (matchImages env args).1.imageL (matchImages env args).1.imageR).2 ⟨1, 0⟩ info.relativePose
          (env.get_projective_equivalent
            (IntrinsicBase.Pinhole ⟨(matchImages env args).1.imageL.Width, (matchImages env args).1.imageL.Height,
              (mainK env args) 0 0, (mainK env args) 0 2, (mainK env args) 1 2⟩) ⟨1, 0⟩)
          (env.get_projective_equivalent
            (IntrinsicBase.Pinhole ⟨(matchImages env args).1.imageL.Width, (matchImages env args).1.imageL.Height,
              (mainK env args) 0 0, (mainK env args) 0 2, (mainK env args) 1 2⟩) info.relativePose) [] = some landmarks ∧
      exportLandmarks (matchImages env args).1.regionsL (matchImages env args).1.regionsR (matchImages env args).1.vec_PutativeMatches info.vec_inliers
          (refinedPose1 env (initialScene (matchImages env args).1.imageL (matchImages env args).1.imageR
          (mainK env args) info landmarks)).rotation
          (refinedPose1 env (initialScene (matchImages env args).1.imageL (matchImages env args).1.imageR
          (mainK env args) info landmarks)).translation
          (adjustedScene env (initialScene (matchImages env args).1.imageL (matchImages env args).1.imageR
          (mainK env args) info landmarks)).structure_ = some files ∧
      (main env args).out = (matchImages env args).2 ++
        ([Event.call_robustRelativePose,
           Event.cout_essential info.found_residual_precision info.vec_inliers.length
             (matchImages env args).1.vec_PutativeMatches.length,
           Event.InlierMatches2SVG
             (args.sOutDir ++ "\\04_ACRansacEssential_" ++ args.sOutPrefix ++ ".svg")
             info.vec_inliers.length,
           Event.cout_Rt info.relativePose.rotation info.relativePose.translation] ++
          [Event.Save (args.sOutDir ++ "\\EssentialGeometry_start_" ++ args.sOutPrefix ++ ".ply") (initialScene (matchImages env args).1.imageL (matchImages env args).1.imageR
          (mainK env args) info landmarks),
           Event.call_Adjust,
           Event.posture (args.sOutDir ++ "\\posture_" ++ args.sOutPrefix ++ ".txt")
             (matrixLines (exportedPose (refinedPose1 env (initialScene (matchImages env args).1.imageL (matchImages env args).1.imageR
          (mainK env args) info landmarks)) (refinedPose2 env (initialScene (matchImages env args).1.imageL (matchImages env args).1.imageR
          (mainK env args) info landmarks))).rotation),
           Event.center (args.sOutDir ++ "\\center_" ++ args.sOutPrefix ++ ".txt")
             (vectorLines
               (exportedPose (refinedPose1 env (initialScene (matchImages env args).1.imageL (matchImages env args).1.imageR
          (mainK env args) info landmarks)) (refinedPose2 env (initialScene (matchImages env args).1.imageL (matchImages env args).1.imageR
          (mainK env args) info landmarks))).translation),
           Event.of_X (args.sOutDir ++ "\\X_" ++ args.sOutPrefix ++ ".txt") files.X,
           Event.of_x1 (args.sOutDir ++ "\\x1_" ++ args.sOutPrefix ++ ".txt") files.x1,
           Event.of_x2 (args.sOutDir ++ "\\x2_" ++ args.sOutPrefix ++ ".txt") files.x2,
           Event.of_desc1 (args.sOutDir ++ "\\desc1_" ++ args.sOutPrefix ++ ".txt") files.desc1,
           Event.of_desc2 (args.sOutDir ++ "\\desc2_" ++ args.sOutPrefix ++ ".txt") files.desc2,
           Event.Save
             (args.sOutDir ++ "\\EssentialGeometry_refined_" ++ args.sOutPrefix ++ "_.ply")
             (snapshotScene env (initialScene (matchImages env args).1.imageL (matchImages env args).1.imageR
          (mainK env args) info landmarks))]) := by
  obtain ⟨hopen, info, he⟩ := essentialGeometry_success env args _ h
  obtain ⟨toks, hf⟩ := Option.isSome_iff_exists.mp hopen
  have hm : main env args = Run.after (matchImages env args).2
      (Run.after [Event.call_robustRelativePose,
           Event.cout_essential info.found_residual_precision info.vec_inliers.length
             (matchImages env args).1.vec_PutativeMatches.length,
           Event.InlierMatches2SVG
             (args.sOutDir ++ "\\04_ACRansacEssential_" ++ args.sOutPrefix ++ ".svg")
             info.vec_inliers.length,
           Event.cout_Rt info.relativePose.rotation info.relativePose.translation]
        (reconstruct env args (matchImages env args).1.imageL (matchImages env args).1.imageR (matchImages env args).1.regionsL (matchImages env args).1.regionsR
          (matchImages env args).1.vec_PutativeMatches (mainK env args) info)) := by
    unfold main
    rw [essentialGeometry_estimated env args _ toks info hf he]
    rfl
  rw [reconstruct_eq] at hm
  cases ht : triangulateInliers env (matchImages env args).1.regionsL (matchImages env args).1.regionsR
          (matchImages env args).1.vec_PutativeMatches info.vec_inliers
          (tinyViews (matchImages env args).1.imageL (matchImages env args).1.imageR).1
          (tinyViews (matchImages env args).1.imageL (matchImages env args).1.imageR).2 ⟨1, 0⟩ info.relativePose
          (env.get_projective_equivalent
            (IntrinsicBase.Pinhole ⟨(matchImages env args).1.imageL.Width, (matchImages env args).1.imageL.Height,
              (mainK env args) 0 0, (mainK env args) 0 2, (mainK env args) 1 2⟩) ⟨1, 0⟩)
          (env.get_projective_equivalent
            (IntrinsicBase.Pinhole ⟨(matchImages env args).1.imageL.Width, (matchImages env args).1.imageL.Height,
              (mainK env args) 0 0, (mainK env args) 0 2, (mainK env args) 1 2⟩) info.relativePose) [] with
  | none =>
    simp only [mainK] at ht
    simp only [mainK, ht] at hm
    rw [hm] at h
    cases h
  | some landmarks =>
    simp only [mainK] at ht
    simp only [mainK, ht] at hm
    cases hx : exportLandmarks (matchImages env args).1.regionsL (matchImages env args).1.regionsR (matchImages env args).1.vec_PutativeMatches
        info.vec_inliers
        (refinedPose1 env (initialScene (matchImages env args).1.imageL (matchImages env args).1.imageR
          (mainK env args) info landmarks)).rotation
        (refinedPose1 env (initialScene (matchImages env args).1.imageL (matchImages env args).1.imageR
          (mainK env args) info landmarks)).translation
        (adjustedScene env (initialScene (matchImages env args).1.imageL (matchImages env args).1.imageR
          (mainK env args) info landmarks)).structure_ with
    | none =>
      simp only [mainK] at hx
      simp only [hx] at hm
      rw [hm] at h
      cases h
    | some files =>
      simp only [mainK] at hx
      simp only [hx] at hm
      refine ⟨info, landmarks, files, he, ?_, ?_, ?_⟩
      · simpa only [mainK] using ht
      · simpa only [mainK] using hx
      · rw [hm]
        rfl

/-- C7, amended: the flag returned by `Adjust` is not consulted, and `main`
exports the scene as `Adjust` left it. The run in which `Adjust` returns
`flag` is the run of `env`: same exit status, same console output of `main`,
same files. Whenever the run succeeds, its events are events that emit no
result, followed by the start snapshot of the scene built by step C, the call
of `Adjust`, the posture and center files computed from the two poses of the
adjusted scene, the five per-landmark streams, which list the landmarks of the
adjusted scene (position moved by the adjusted pose of camera 1, observations,
descriptors), and the refined snapshot of the adjusted scene. -/
theorem C7_adjust_flag_is_ignored_and_adjusted_scene_is_exported (env : Env) (args : Args)
    (flag : SfM_Data → Optimize_Options → Bool) :
    main (env.withAdjustFlag flag) args = main env args ∧
    ((main env args).status = Status.EXIT_SUCCESS →
      ∃ (info : RelativePose_Info) (landmarks : Landmarks) (scene : SfM_Data)
        (files : PointFiles) (pre : List Event),
      estimate env (matchImages env args).1 (mainK env args) = some (some info) ∧
      triangulateInliers env (matchImages env args).1.regionsL (matchImages env args).1.regionsR
          (matchImages env args).1.vec_PutativeMatches info.vec_inliers
          (tinyViews (matchImages env args).1.imageL (matchImages env args).1.imageR).1
          (tinyViews (matchImages env args).1.imageL (matchImages env args).1.imageR).2 ⟨1, 0⟩ info.relativePose
          (env.get_projective_equivalent
            (IntrinsicBase.Pinhole ⟨(matchImages env args).1.imageL.Width, (matchImages env args).1.imageL.Height,
              (mainK env args) 0 0, (mainK env args) 0 2, (mainK env args) 1 2⟩) ⟨1, 0⟩)
          (env.get_projective_equivalent
            (IntrinsicBase.Pinhole ⟨(matchImages env args).1.imageL.Width, (matchImages env args).1.imageL.Height,
              (mainK env args) 0 0, (mainK env args) 0 2, (mainK env args) 1 2⟩) info.relativePose) [] = some landmarks ∧
      scene = initialScene (matchImages env args).1.imageL (matchImages env args).1.imageR
          (mainK env args) info landmarks ∧
      (∀ e ∈ pre, e.isResult = false) ∧
      (main env args).out = pre ++
          [Event.Save (args.sOutDir ++ "\\EssentialGeometry_start_" ++ args.sOutPrefix ++ ".ply") scene,
           Event.call_Adjust,
           Event.posture (args.sOutDir ++ "\\posture_" ++ args.sOutPrefix ++ ".txt")
             (matrixLines (exportedPose (refinedPose1 env scene) (refinedPose2 env scene)).rotation),
           Event.center (args.sOutDir ++ "\\center_" ++ args.sOutPrefix ++ ".txt")
             (vectorLines
               (exportedPose (refinedPose1 env scene) (refinedPose2 env scene)).translation),
           Event.of_X (args.sOutDir ++ "\\X_" ++ args.sOutPrefix ++ ".txt") files.X,
           Event.of_x1 (args.sOutDir ++ "\\x1_" ++ args.sOutPrefix ++ ".txt") files.x1,
           Event.of_x2 (args.sOutDir ++ "\\x2_" ++ args.sOutPrefix ++ ".txt") files.x2,
           Event.of_desc1 (args.sOutDir ++ "\\desc1_" ++ args.sOutPrefix ++ ".txt") files.desc1,
           Event.of_desc2 (args.sOutDir ++ "\\desc2_" ++ args.sOutPrefix ++ ".txt") files.desc2,
           Event.Save
             (args.sOutDir ++ "\\EssentialGeometry_refined_" ++ args.sOutPrefix ++ "_.ply")
             (snapshotScene env scene)] ∧
      files.X = (adjustedScene env scene).structure_.map (fun p =>
        [exportX (refinedPose1 env scene).rotation (refinedPose1 env scene).translation p.2.X 0,
         exportX (refinedPose1 env scene).rotation (refinedPose1 env scene).translation p.2.X 1,
         exportX (refinedPose1 env scene).rotation (refinedPose1 env scene).translation p.2.X 2]) ∧
      files.x1.map some = (adjustedScene env scene).structure_.map
        (fun p => (Hash_Map.at p.2.obs 0).map (fun o => [o.x 0, o.x 1])) ∧
      files.x2.map some = (adjustedScene env scene).structure_.map
        (fun p => (Hash_Map.at p.2.obs 1).map (fun o => [o.x 0, o.x 1])) ∧
      files.desc1.map some = (adjustedScene env scene).structure_.map
        (fun p => (info.vec_inliers[p.1]?.bind (fun inl => (matchImages env args).1.vec_PutativeMatches[inl]?)).bind
          (fun m => (matchImages env args).1.regionsL.Descriptors[m.i_]?)) ∧
      files.desc2.map some = (adjustedScene env scene).structure_.map
        (fun p => (info.vec_inliers[p.1]?.bind (fun inl => (matchImages env args).1.vec_PutativeMatches[inl]?)).bind
          (fun m => (matchImages env args).1.regionsR.Descriptors[m.j_]?))) := by
  refine ⟨main_withAdjustFlag env args flag, fun h => ?_⟩
  obtain ⟨info, landmarks, files, he, ht, hx, hout⟩ := main_success env args h
  have hs := exportFold_of_some _ _ _ _ _ _ _ _ _ hx
  simp only [List.nil_append, List.map_nil] at hs
  refine ⟨info, landmarks, _, files, (matchImages env args).2 ++ [Event.call_robustRelativePose,
           Event.cout_essential info.found_residual_precision info.vec_inliers.length
             (matchImages env args).1.vec_PutativeMatches.length,
           Event.InlierMatches2SVG
             (args.sOutDir ++ "\\04_ACRansacEssential_" ++ args.sOutPrefix ++ ".svg")
             info.vec_inliers.length,
           Event.cout_Rt info.relativePose.rotation info.relativePose.translation], he, ht, rfl, ?_, ?_,
    hs.1, hs.2.1, hs.2.2.1, hs.2.2.2.1, hs.2.2.2.2⟩
  · intro e hmem
    rcases List.mem_append.mp hmem with hm | hm
    · exact (matchImages_no_result env args e hm).1
    · simp only [List.mem_cons, List.mem_singleton, List.not_mem_nil, or_false] at hm
      rcases hm with rfl | rfl | rfl | rfl <;> rfl
  · rw [hout, List.append_assoc]

theorem movingRun_status : (main sampleEnvMoving sampleArgs).status = Status.EXIT_SUCCESS := by
  norm_num [main, Run.after, essentialGeometry, matchImages, sampleEnvMoving, sampleEnvOk,
    sampleEnv, readIntrinsic, estimate, putativePoints, sampleRegions,
    SIFT_Regions.GetRegionsPositions, reconstruct, tinyViews, setupIntrinsics, iBAType,
    bSharedIntrinsic, Hash_Map.at, Hash_Map.modify, triangulateInliers, triangulateStep,
    inlierFeatures, sampleInfo, sampleRefined, exportLandmarks, exportStep, Hash_Map.touch,
    Hash_Map.index, Pose3.default, Landmark.default, List.range_succ]

/-- Witness of C7 (amended): the concrete run whose bundle adjustment returns
false after moving both cameras and the landmark; the run succeeds and its
result events are those of the adjusted scene. -/
theorem C7_adjusted_scene_witness :
    (∀ scene options, (sampleEnvMoving.Adjust scene options).1 = false) ∧
    (main sampleEnvMoving sampleArgs).status = Status.EXIT_SUCCESS ∧
      ∃ (info : RelativePose_Info) (landmarks : Landmarks) (scene : SfM_Data)
        (files : PointFiles) (pre : List Event),
      estimate sampleEnvMoving (matchImages sampleEnvMoving sampleArgs).1 (mainK sampleEnvMoving sampleArgs) = some (some info) ∧
      triangulateInliers sampleEnvMoving (matchImages sampleEnvMoving sampleArgs).1.regionsL (matchImages sampleEnvMoving sampleArgs).1.regionsR
          (matchImages sampleEnvMoving sampleArgs).1.vec_PutativeMatches info.vec_inliers
          (tinyViews (matchImages sampleEnvMoving sampleArgs).1.imageL (matchImages sampleEnvMoving sampleArgs).1.imageR).1
          (tinyViews (matchImages sampleEnvMoving sampleArgs).1.imageL (matchImages sampleEnvMoving sampleArgs).1.imageR).2 ⟨1, 0⟩ info.relativePose
          (sampleEnvMoving.get_projective_equivalent
            (IntrinsicBase.Pinhole ⟨(matchImages sampleEnvMoving sampleArgs).1.imageL.Width, (matchImages sampleEnvMoving sampleArgs).1.imageL.Height,
              (mainK sampleEnvMoving sampleArgs) 0 0, (mainK sampleEnvMoving sampleArgs) 0 2, (mainK sampleEnvMoving sampleArgs) 1 2⟩) ⟨1, 0⟩)
          (sampleEnvMoving.get_projective_equivalent
            (IntrinsicBase.Pinhole ⟨(matchImages sampleEnvMoving sampleArgs).1.imageL.Width, (matchImages sampleEnvMoving sampleArgs).1.imageL.Height,
              (mainK sampleEnvMoving sampleArgs) 0 0, (mainK sampleEnvMoving sampleArgs) 0 2, (mainK sampleEnvMoving sampleArgs) 1 2⟩) info.relativePose) [] = some landmarks ∧
      scene = initialScene (matchImages sampleEnvMoving sampleArgs).1.imageL (matchImages sampleEnvMoving sampleArgs).1.imageR
          (mainK sampleEnvMoving sampleArgs) info landmarks ∧
      (∀ e ∈ pre, e.isResult = false) ∧
      (main sampleEnvMoving sampleArgs).out = pre ++
          [Event.Save (sampleArgs.sOutDir ++ "\\EssentialGeometry_start_" ++ sampleArgs.sOutPrefix ++ ".ply") scene,
           Event.call_Adjust,
           Event.posture (sampleArgs.sOutDir ++ "\\posture_" ++ sampleArgs.sOutPrefix ++ ".txt")
             (matrixLines (exportedPose (refinedPose1 sampleEnvMoving scene) (refinedPose2 sampleEnvMoving scene)).rotation),
           Event.center (sampleArgs.sOutDir ++ "\\center_" ++ sampleArgs.sOutPrefix ++ ".txt")
             (vectorLines
               (exportedPose (refinedPose1 sampleEnvMoving scene) (refinedPose2 sampleEnvMoving scene)).translation),
           Event.of_X (sampleArgs.sOutDir ++ "\\X_" ++ sampleArgs.sOutPrefix ++ ".txt") files.X,
           Event.of_x1 (sampleArgs.sOutDir ++ "\\x1_" ++ sampleArgs.sOutPrefix ++ ".txt") files.x1,
           Event.of_x2 (sampleArgs.sOutDir ++ "\\x2_" ++ sampleArgs.sOutPrefix ++ ".txt") files.x2,
           Event.of_desc1 (sampleArgs.sOutDir ++ "\\desc1_" ++ sampleArgs.sOutPrefix ++ ".txt") files.desc1,
           Event.of_desc2 (sampleArgs.sOutDir ++ "\\desc2_" ++ sampleArgs.sOutPrefix ++ ".txt") files.desc2,
           Event.Save
             (sampleArgs.sOutDir ++ "\\EssentialGeometry_refined_" ++ sampleArgs.sOutPrefix ++ "_.ply")
             (snapshotScene sampleEnvMoving scene)] ∧
      files.X = (adjustedScene sampleEnvMoving scene).structure_.map (fun p =>
        [exportX (refinedPose1 sampleEnvMoving scene).rotation (refinedPose1 sampleEnvMoving scene).translation p.2.X 0,
         exportX (refinedPose1 sampleEnvMoving scene).rotation (refinedPose1 sampleEnvMoving scene).translation p.2.X 1,
         exportX (refinedPose1 sampleEnvMoving scene).rotation (refinedPose1 sampleEnvMoving scene).translation p.2.X 2]) ∧
      files.x1.map some = (adjustedScene sampleEnvMoving scene).structure_.map
        (fun p => (Hash_Map.at p.2.obs 0).map (fun o => [o.x 0, o.x 1])) ∧
      files.x2.map some = (adjustedScene sampleEnvMoving scene).structure_.map
        (fun p => (Hash_Map.at p.2.obs 1).map (fun o => [o.x 0, o.x 1])) ∧
      files.desc1.map some = (adjustedScene sampleEnvMoving scene).structure_.map
        (fun p => (info.vec_inliers[p.1]?.bind (fun inl => (matchImages sampleEnvMoving sampleArgs).1.vec_PutativeMatches[inl]?)).bind
          (fun m => (matchImages sampleEnvMoving sampleArgs).1.regionsL.Descriptors[m.i_]?)) ∧
      files.desc2.map some = (adjustedScene sampleEnvMoving scene).structure_.map
        (fun p => (info.vec_inliers[p.1]?.bind (fun inl => (matchImages sampleEnvMoving sampleArgs).1.vec_PutativeMatches[inl]?)).bind
          (fun m => (matchImages sampleEnvMoving sampleArgs).1.regionsR.Descriptors[m.j_]?)) :=
  ⟨fun _ _ => rfl, movingRun_status,
   (C7_adjust_flag_is_ignored_and_adjusted_scene_is_exported sampleEnvMoving sampleArgs
      (fun _ _ => true)).2 movingRun_status⟩

theorem sample_inliers_in_range : ∀ x ∈ sampleInfo.vec_inliers, x < sampleMatches.length := by
  simp [sampleInfo, sampleMatches]

theorem sample_matches_in_range : ∀ m ∈ sampleMatches,
    m.i_ < sampleRegions.Features.length ∧ m.j_ < sampleRegions.Features.length := by
  simp [sampleMatches, sampleRegions]

/-- Witness of C1 on the concrete run: one inlier, triangulated at depth 5. -/
theorem C1_landmark_created_witness :
    (∀ x ∈ sampleInfo.vec_inliers, x < sampleMatches.length) ∧
      (∀ m ∈ sampleMatches,
        m.i_ < sampleRegions.Features.length ∧ m.j_ < sampleRegions.Features.length) ∧
      ∃ landmarks,
        triangulateInliers sampleEnvOk sampleRegions sampleRegions sampleMatches
            sampleInfo.vec_inliers (tinyViews sampleImage sampleImage).1
            (tinyViews sampleImage sampleImage).2 ⟨1, 0⟩ sampleInfo.relativePose 0 0 [] =
          some landmarks ∧
        (∀ i, i < sampleInfo.vec_inliers.length →
          ∃ X, inlierPoint sampleEnvOk sampleRegions sampleRegions sampleMatches
              sampleInfo.vec_inliers 0 0 i = some X ∧
            ((∃ lm, (i, lm) ∈ landmarks) ↔
              ¬ (sampleEnvOk.Depth (⟨1, 0⟩ : Pose3).rotation (⟨1, 0⟩ : Pose3).translation X < 0 ∧
                  sampleEnvOk.Depth sampleInfo.relativePose.rotation
                    sampleInfo.relativePose.translation X < 0)) ∧
            (∀ lm, (i, lm) ∈ landmarks → lm.X = X)) ∧
        (∀ p ∈ landmarks, p.1 < sampleInfo.vec_inliers.length ∧
          ¬ (sampleEnvOk.Depth (⟨1, 0⟩ : Pose3).rotation (⟨1, 0⟩ : Pose3).translation p.2.X < 0 ∧
              sampleEnvOk.Depth sampleInfo.relativePose.rotation
                sampleInfo.relativePose.translation p.2.X < 0)) :=
  ⟨sample_inliers_in_range, sample_matches_in_range,
   C1_landmark_created_iff_not_behind_both_cameras sampleEnvOk sampleRegions sampleRegions sampleMatches
        sampleInfo.vec_inliers sampleImage sampleImage ⟨1, 0⟩ sampleInfo.relativePose 0 0
     sample_inliers_in_range sample_matches_in_range⟩

/-- Witness of C8 on the concrete run. -/
theorem C8_landmark_observations_witness :
    (∀ x ∈ sampleInfo.vec_inliers, x < sampleMatches.length) ∧
      (∀ m ∈ sampleMatches,
        m.i_ < sampleRegions.Features.length ∧ m.j_ < sampleRegions.Features.length) ∧
      ∃ landmarks,
        triangulateInliers sampleEnvOk sampleRegions sampleRegions sampleMatches
            sampleInfo.vec_inliers (tinyViews sampleImage sampleImage).1
            (tinyViews sampleImage sampleImage).2 ⟨1, 0⟩ sampleInfo.relativePose 0 0 [] =
          some landmarks ∧
        ∀ p ∈ landmarks, ∃ inl m posL posR,
          sampleInfo.vec_inliers[p.1]? = some inl ∧ sampleMatches[inl]? = some m ∧
          sampleRegions.GetRegionsPositions[m.i_]? = some posL ∧
          sampleRegions.GetRegionsPositions[m.j_]? = some posR ∧
          p.2.obs = [(0, ⟨posL, m.i_⟩), (1, ⟨posR, m.j_⟩)] :=
  ⟨sample_inliers_in_range, sample_matches_in_range,
   C8_landmark_observations_are_the_two_matched_keypoints sampleEnvOk sampleRegions sampleRegions sampleMatches
        sampleInfo.vec_inliers sampleImage sampleImage ⟨1, 0⟩ sampleInfo.relativePose 0 0
     sample_inliers_in_range sample_matches_in_range⟩

theorem sample_keep :
    (triangulateInliers sampleEnvOk sampleRegions sampleRegions sampleMatches
            sampleInfo.vec_inliers (tinyViews sampleImage sampleImage).1
            (tinyViews sampleImage sampleImage).2 ⟨1, 0⟩ sampleInfo.relativePose 0 0 []).map
        (List.map (fun p => (p.1, p.2.obs))) =
      some (sampleRefined.map (fun p => (p.1, p.2.obs))) := by
  norm_num [triangulateInliers, triangulateStep, inlierFeatures, sampleInfo, sampleMatches,
    sampleRegions, sampleEnvOk, sampleEnv, sampleRefined, tinyViews, Hash_Map.modify,
    Landmark.default, List.range_succ]

/-- Witness of C9 on the concrete run, the landmark being moved to depth 7 by
the adjustment and exported with `R1 = 1`, `t1 = 0`. -/
theorem C9_per_landmark_outputs_witness :
    (∀ x ∈ sampleInfo.vec_inliers, x < sampleMatches.length) ∧
      (∀ m ∈ sampleMatches,
        m.i_ < sampleRegions.Features.length ∧ m.j_ < sampleRegions.Features.length) ∧
      sampleRegions.Descriptors.length = sampleRegions.Features.length ∧
      ((triangulateInliers sampleEnvOk sampleRegions sampleRegions sampleMatches
            sampleInfo.vec_inliers (tinyViews sampleImage sampleImage).1
            (tinyViews sampleImage sampleImage).2 ⟨1, 0⟩ sampleInfo.relativePose 0 0 []).map
          (List.map (fun p => (p.1, p.2.obs))) =
        some (sampleRefined.map (fun p => (p.1, p.2.obs)))) ∧
      ∃ files,
        exportLandmarks sampleRegions sampleRegions sampleMatches sampleInfo.vec_inliers 1 0
            sampleRefined = some files ∧
        files.X.length = sampleRefined.length ∧ files.x1.length = sampleRefined.length ∧
        files.x2.length = sampleRefined.length ∧ files.desc1.length = sampleRefined.length ∧
        files.desc2.length = sampleRefined.length ∧
        files.X = sampleRefined.map (fun p =>
          [exportX 1 0 p.2.X 0, exportX 1 0 p.2.X 1, exportX 1 0 p.2.X 2]) ∧
        files.x1.map some =
          sampleRefined.map (fun p => (Hash_Map.at p.2.obs 0).map (fun o => [o.x 0, o.x 1])) ∧
        files.x2.map some =
          sampleRefined.map (fun p => (Hash_Map.at p.2.obs 1).map (fun o => [o.x 0, o.x 1])) ∧
        files.desc1.map some =
          sampleRefined.map (fun p =>
            (Hash_Map.at p.2.obs 0).bind (fun o => sampleRegions.Descriptors[o.id_feat]?)) ∧
        files.desc2.map some =
          sampleRefined.map (fun p =>
            (Hash_Map.at p.2.obs 1).bind (fun o => sampleRegions.Descriptors[o.id_feat]?)) ∧
        ∀ p ∈ sampleRefined, p.1 < sampleInfo.vec_inliers.length :=
  ⟨sample_inliers_in_range, sample_matches_in_range, rfl, sample_keep,
   C9_per_landmark_outputs_are_parallel sampleEnvOk sampleRegions sampleRegions sampleMatches
        sampleInfo.vec_inliers sampleImage sampleImage ⟨1, 0⟩ sampleInfo.relativePose 0 0 1 0 sampleRefined
     sample_inliers_in_range sample_matches_in_range rfl rfl sample_keep⟩

end OpenMVG
